import Mathlib

/-!
# Booksynapse: the page controller `static/ui.js`

A shallow embedding of the controller: JavaScript strings are sequences of
UTF-16 code units, values are the primitive JSON values plus `undefined`, the
page is a record of the elements the script looks up, and every event handler
is a function from page to page.
-/

namespace Booksynapse

/-! ## JavaScript strings -/

/-- A JavaScript string: its UTF-16 code units, in order.  `length`, `slice`,
`trim`, `replace` and `encodeURIComponent` all work on code units. -/
abbrev JSString := List Nat

/-- The code units of a source literal (all literals of `ui.js` are ASCII). -/
def lit (s : String) : JSString := s.toList.map Char.toNat

/-- Decimal digits of a natural number, as code units. -/
def decimal (n : Nat) : JSString := (Nat.toDigits 10 n).map Char.toNat

/-! ## JavaScript numbers and values -/

/-- A JavaScript number.  A finite double is represented by its exact rational
value (every double is a rational; negative zero is identified with zero). -/
inductive JSNum where
  | nan
  | inf (neg : Bool)
  | fin (q : ℚ)
  deriving DecidableEq

/-- The characters `Number::toString` can produce for a finite number. -/
inductive NumChar where
  | digit (d : Fin 10)
  | dot
  | minus
  | plus
  | e
  deriving DecidableEq

/-- Code unit of a number character. -/
def NumChar.code : NumChar → Nat
  | .digit d => 48 + d.val
  | .dot => 46
  | .minus => 45
  | .plus => 43
  | .e => 101

/-- Two conversions of the host language that the controller relies on and
that are not part of this repository: `Number::toString` on the finite numbers
that are not integers of magnitude at most 2^53 (shortest round-trip digits,
exponent form), and `StringToNumber`. -/
structure Builtins where
  numberToString : ℚ → List NumChar
  stringToNumber : JSString → JSNum

/-- A primitive JavaScript value: what a field of a parsed JSON object can hold
(objects and arrays as field values are outside this model), or `undefined`
for a field that is absent. -/
inductive JSVal where
  | undefined
  | null
  | bool (b : Bool)
  | num (n : JSNum)
  | str (s : JSString)
  deriving DecidableEq

/-- Truthiness (`ToBoolean`): `undefined`, `null`, `false`, zero, `NaN` and the
empty string are falsy. -/
def truthy : JSVal → Bool
  | .undefined => false
  | .null => false
  | .bool b => b
  | .num .nan => false
  | .num (.inf _) => true
  | .num (.fin q) => decide (q ≠ 0)
  | .str s => !s.isEmpty

/-- The operator `a || b`. -/
def jsOr (a b : JSVal) : JSVal := if truthy a then a else b

/-- `Number::toString`. -/
def numToString (B : Builtins) : JSNum → JSString
  | .nan => lit "NaN"
  | .inf false => lit "Infinity"
  | .inf true => lit "-Infinity"
  | .fin q =>
    if q.den = 1 ∧ q.num.natAbs ≤ 2 ^ 53 then
      (if q.num < 0 then lit "-" else []) ++ decimal q.num.natAbs
    else (B.numberToString q).map NumChar.code

/-- String conversion `ToString`, as done by `String(v)` and by a template
literal. -/
def toStr (B : Builtins) : JSVal → JSString
  | .undefined => lit "undefined"
  | .null => lit "null"
  | .bool true => lit "true"
  | .bool false => lit "false"
  | .num n => numToString B n
  | .str s => s

/-- Number conversion `Number(v)`. -/
def toNumber (B : Builtins) : JSVal → JSNum
  | .undefined => .nan
  | .null => .fin 0
  | .bool true => .fin 1
  | .bool false => .fin 0
  | .num n => n
  | .str s => B.stringToNumber s

/-- The integer `n` for which `n / 10` is closest to `|q|`, the larger one on
a tie. -/
def nearestTenth (q : ℚ) : Nat := (20 * q.num.natAbs + q.den) / (2 * q.den)

/-- `Number.prototype.toFixed(1)`: a number that is not finite is converted by
`Number::toString`; otherwise the sign is split off, a magnitude of at least
10^21 is converted by `Number::toString`, and a smaller one is written as the
digits of `nearestTenth` with a point before the last digit. -/
def toFixed1 (B : Builtins) : JSNum → JSString
  | .fin q =>
    (if q.num < 0 then lit "-" else []) ++
      (if 10 ^ 21 * q.den ≤ q.num.natAbs then numToString B (.fin |q|)
       else decimal (nearestTenth q / 10) ++ lit "." ++ decimal (nearestTenth q % 10))
  | n => numToString B n

/-! ## escapeHtml -/

/-- The character class `[&<>\"]` of the regular expression. -/
def isSpecial (c : Nat) : Bool := c = 38 || c = 60 || c = 62 || c = 34

/-- The object literal that maps each special character to its entity. -/
def entityTable : List (Nat × JSString) :=
  [(38, lit "&amp;"), (60, lit "&lt;"), (62, lit "&gt;"), (34, lit "&quot;")]

/-- The replacement callback: the table entry for the matched character; a
missing entry would be `undefined`, which `replace` converts to a string. -/
def replacement (c : Nat) : JSString :=
  match entityTable.lookup c with
  | some e => e
  | none => lit "undefined"

/-- Global replacement `s.replace(/[&<>\"]/g, fn)`: every code unit of the
class is replaced by the callback's result, the others are copied. -/
def replaceSpecials : JSString → JSString
  | [] => []
  | c :: s => (if isSpecial c then replacement c else [c]) ++ replaceSpecials s

/-- The function `escapeHtml(str)`. -/
def escapeHtml (B : Builtins) (v : JSVal) : JSString := replaceSpecials (toStr B v)

/-! ## trim and encodeURIComponent -/

/-- White space and line terminators, the code units `trim` strips. -/
def isWhiteSpace (c : Nat) : Bool :=
  c = 9 || c = 10 || c = 11 || c = 12 || c = 13 || c = 32 || c = 160 || c = 5760
    || (8192 ≤ c && c ≤ 8202) || c = 8232 || c = 8233 || c = 8239 || c = 8287
    || c = 12288 || c = 65279

/-- The method `String.prototype.trim`. -/
def trim (s : JSString) : JSString :=
  ((s.dropWhile isWhiteSpace).reverse.dropWhile isWhiteSpace).reverse

/-- The characters `encodeURIComponent` leaves alone: letters, digits and
`- _ . ! ~ * ' ( )`. -/
def isUnreserved (c : Nat) : Bool :=
  (65 ≤ c && c ≤ 90) || (97 ≤ c && c ≤ 122) || (48 ≤ c && c ≤ 57)
    || c = 45 || c = 95 || c = 46 || c = 33 || c = 126 || c = 42 || c = 39 || c = 40 || c = 41

/-- UTF-8 octets of a code point. -/
def utf8 (cp : Nat) : List Nat :=
  if cp < 128 then [cp]
  else if cp < 2048 then [192 + cp / 64, 128 + cp % 64]
  else if cp < 65536 then [224 + cp / 4096, 128 + cp / 64 % 64, 128 + cp % 64]
  else [240 + cp / 262144, 128 + cp / 4096 % 64, 128 + cp / 64 % 64, 128 + cp % 64]

/-- Upper-case hexadecimal digit. -/
def hexDigit (d : Nat) : Nat := if d < 10 then 48 + d else 55 + d

/-- Percent-encoding of the UTF-8 octets of a code point. -/
def pctEncode (cp : Nat) : JSString :=
  (utf8 cp).flatMap fun b => [37, hexDigit (b / 16), hexDigit (b % 16)]

/-- The encoding loop of `encodeURIComponent`; the first argument is a leading
surrogate waiting for its trailing half.  The result is `none` when the string
has an unpaired surrogate, where the function throws a `URIError`. -/
def encodeFrom : Option Nat → JSString → Option JSString
  | none, [] => some []
  | some _, [] => none
  | none, c :: rest =>
    if isUnreserved c then (encodeFrom none rest).map (c :: ·)
    else if c < 55296 ∨ 57343 < c then (encodeFrom none rest).map (pctEncode c ++ ·)
    else if 56320 ≤ c then none
    else encodeFrom (some c) rest
  | some h, d :: rest =>
    if 56320 ≤ d ∧ d ≤ 57343 then
      (encodeFrom none rest).map (pctEncode ((h - 55296) * 1024 + (d - 56320) + 65536) ++ ·)
    else none

/-- The function `encodeURIComponent`. -/
def encodeURIComponent (s : JSString) : Option JSString := encodeFrom none s

/-! ## Books -/

/-- An item of an API response, with the fields the controller reads. -/
structure Item where
  id : JSVal
  title : JSVal
  author : JSVal
  genres : JSVal
  avg_rating : JSVal
  score : JSVal
  ratings_count : JSVal
  deriving DecidableEq

/-- The object `renderResults` reads a card from. -/
structure Book where
  id : JSVal
  title : JSVal
  author : JSVal
  genres : JSVal
  avg_rating : JSVal
  ratings_count : JSVal
  deriving DecidableEq

/-- The function `normalizeBooks(items)`. -/
def normalizeBooks (items : List Item) : List Book :=
  items.map fun it =>
    { id := it.id
      title := it.title
      author := it.author
      genres := it.genres
      avg_rating := jsOr (jsOr it.avg_rating it.score) (.num (.fin 0))
      ratings_count := jsOr it.ratings_count (.num (.fin 0)) }

/-- An item handed to `renderResults` as it came from the API (the genre and
explore flows): `renderResults` reads the six fields of a book from it. -/
def Item.raw (it : Item) : Book :=
  { id := it.id, title := it.title, author := it.author, genres := it.genres,
    avg_rating := it.avg_rating, ratings_count := it.ratings_count }

/-- The constant `g` of a card: the genres, cut to 50 code units plus `...`
when longer, or the empty string when the genres are falsy.  A value without a
`length` (not a string) compares false with 50 and is kept. -/
def genreText (genres : JSVal) : JSVal :=
  if truthy genres then
    match genres with
    | .str s => if s.length > 50 then .str (s.take 50 ++ lit "...") else genres
    | _ => genres
  else .str []

/-- The genre slot of the card template: a paragraph when `g` is truthy. -/
def genreSlot (B : Builtins) (g : JSVal) : JSString :=
  if truthy g then
    lit "<p class=\"card-text\"><small class=\"text-muted\">" ++ escapeHtml B g
      ++ lit "</small></p>"
  else []

/-- Static text of the card template before the title. -/
def seg0 : JSString := lit "\n            <div class=\"col-md-4 mb-4\">\n                <div class=\"card h-100 soft-card\">\n                    <div class=\"card-body\">\n                        <h5 class=\"card-title\">"

/-- Static text between title and author. -/
def seg1 : JSString := lit "</h5>\n                        <p class=\"card-text text-muted\">by "

/-- Static text between author and the genre slot. -/
def seg2 : JSString := lit "</p>\n                        "

/-- Static text between the genre slot and the rating. -/
def seg3 : JSString := lit "\n                        <div class=\"mb-2\">\n                            <span class=\"badge bg-warning text-dark\"><i class=\"fa-solid fa-star me-1\"></i> "

/-- Static text between the rating and the ratings count. -/
def seg4 : JSString := lit "</span>\n                            <span class=\"badge bg-secondary\">"

/-- Static text between the ratings count and the id. -/
def seg5 : JSString := lit " ratings</span>\n                        </div>\n                        <a href=\"/book/"

/-- Static text after the id. -/
def seg6 : JSString := lit "\" class=\"btn btn-sm btn-primary\"><i class=\"fa-solid fa-circle-info me-1\"></i> View Details</a>\n                    </div>\n                </div>\n            </div>"

/-- The card template of `renderResults`, for one book. -/
def renderCard (B : Builtins) (b : Book) : JSString :=
  seg0 ++ escapeHtml B b.title
    ++ seg1 ++ escapeHtml B (jsOr b.author (.str []))
    ++ seg2 ++ genreSlot B (genreText b.genres)
    ++ seg3 ++ toFixed1 B (toNumber B b.avg_rating)
    ++ seg4 ++ toStr B b.ratings_count
    ++ seg5 ++ toStr B b.id
    ++ seg6

/-- The markup of the notice for an empty result. -/
def noResults : JSString :=
  lit "<div class=\"col-12\"><div class=\"alert alert-info\">No results.</div></div>"

/-! ## The page -/

/-- A tab control (an element of class `tab-card`): its `data-tab` attribute,
its class list and its `aria-selected` attribute. -/
structure Tab where
  dataTab : Option String
  classList : List String
  ariaSelected : Option String
  deriving DecidableEq

/-- The part of the document the controller reads and writes.  An element the
script looks up by id is `none` when the document has no such element.  The
fields `fetched` and `rendered` record the calls of `fetch` (the URL) and of
`renderResults` (the title), oldest first. -/
structure Page where
  tabs : List Tab
  panelSimilar : Option (List String)
  panelGenre : Option (List String)
  panelMood : Option (List String)
  panelExplore : Option (List String)
  textarea : Option JSString
  textareaFocused : Bool
  errEl : Option (List String)
  genreChecked : List JSString
  resultsGrid : Option JSString
  resultsTitle : Option JSString
  fetched : List JSString
  rendered : List JSString
  deriving DecidableEq

/-- The method `classList.add`. -/
def classAdd (c : String) (l : List String) : List String := if c ∈ l then l else l ++ [c]

/-- The method `classList.remove`. -/
def classRemove (c : String) (l : List String) : List String := l.filter (· ≠ c)

/-- The method `classList.toggle(c, force)`. -/
def classToggle (c : String) (force : Bool) (l : List String) : List String :=
  if force then classAdd c l else classRemove c l

/-- The function `renderResults(title, books)`; `books` is `none` for `null`
or `undefined`. -/
def renderResults (B : Builtins) (title : JSString) (books : Option (List Book)) (s : Page) :
    Page :=
  let s1 := { s with rendered := s.rendered ++ [title],
                     resultsTitle := s.resultsTitle.map fun _ => title }
  match s1.resultsGrid with
  | none => s1
  | some _ =>
    match books with
    | none => { s1 with resultsGrid := some noResults }
    | some [] => { s1 with resultsGrid := some noResults }
    | some bs => { s1 with resultsGrid := some (bs.map (renderCard B)).flatten }

/-- Effect of `setActiveTab` on the panel stored under `key`: an absent panel
is skipped, the panel of the tab is shown and marked, any other is hidden. -/
def setPanel (key : String) (tabName : Option String) (el : Option (List String)) :
    Option (List String) :=
  el.map fun cl =>
    if some key = tabName then classAdd "active" (classRemove "d-none" cl)
    else classRemove "active" (classAdd "d-none" cl)

/-- The function `setActiveTab(tabName, clickedBtn)`; the second argument is
never read.  A tab without a `data-tab` attribute has `dataset.tab` undefined,
here `none`. -/
def setActiveTab (tabName : Option String) (s : Page) : Page :=
  { s with
    tabs := s.tabs.map fun t =>
      { t with
        classList := classToggle "active" (decide (t.dataTab = tabName)) t.classList
        ariaSelected := some (if t.dataTab = tabName then "true" else "false") }
    panelSimilar := setPanel "similar" tabName s.panelSimilar
    panelGenre := setPanel "genre" tabName s.panelGenre
    panelMood := setPanel "mood" tabName s.panelMood
    panelExplore := setPanel "explore" tabName s.panelExplore }

/-- A click on the tab control at index `i` of `tabs` (its click listener); an
index outside the list is no element and nothing happens. -/
def clickTab (i : Nat) (s : Page) : Page :=
  match s.tabs[i]? with
  | some t => setActiveTab t.dataTab s
  | none => s

/-- The constant `activeIndex` of the `keydown` listener: the index of the
first tab with the class `active`, `none` where `findIndex` gives -1. -/
def activeIndex (s : Page) : Option Nat :=
  s.tabs.findIdx? fun t => decide ("active" ∈ t.classList)

/-- The `keydown` listener of the document, for the key `key`. -/
def keydown (key : String) (s : Page) : Page :=
  match activeIndex s with
  | none => s
  | some activeIndex =>
    if key = "ArrowRight" then
      clickTab ((activeIndex + 1) % s.tabs.length) s
    else if key = "ArrowLeft" then
      clickTab (Int.toNat (Int.tmod ((activeIndex : Int) - 1 + s.tabs.length) s.tabs.length)) s
    else s

/-- The constant `q` of the `#get-recs` listener: the trimmed value of the
textarea, or the empty string when there is no textarea. -/
def interestsQuery (s : Page) : JSString :=
  match s.textarea with
  | some v => trim v
  | none => []

/-- The click listener of `#get-recs`.  `resp` is the parsed body of the
response, `none` when the request or the parsing fails (the handler then stops
after the request).  The part of the listener after the two `await`s runs when
the response arrives; here it runs at once, no other event in between.  An
unpaired surrogate makes `encodeURIComponent` throw before `fetch` is
reached. -/
def getRecsClick (B : Builtins) (resp : Option (List Item)) (s : Page) : Page :=
  let q := interestsQuery s
  if q.isEmpty then
    { s with errEl := s.errEl.map (classRemove "visually-hidden")
             textareaFocused := s.textarea.isSome || s.textareaFocused }
  else
    let s1 := { s with errEl := s.errEl.map (classAdd "visually-hidden") }
    match encodeURIComponent q with
    | none => s1
    | some enc =>
      let s2 := { s1 with fetched := s1.fetched ++ [lit "/api/recommendations?q=" ++ enc] }
      match resp with
      | none => s2
      | some data => renderResults B (lit "Similar Books") (some (normalizeBooks data)) s2

/-- The constant `genres` of the `#genre-submit` listener: the trimmed values
of the checked checkboxes, without the empty ones. -/
def selectedGenres (s : Page) : List JSString :=
  (s.genreChecked.map trim).filter fun g => !g.isEmpty

/-- The click listener of `#genre-submit`.  `genreChecked` holds the values of
the checked checkboxes of the genre panel, in document order. -/
def genreSubmitClick (B : Builtins) (resp : Option (List Item)) (s : Page) : Page :=
  let genres := selectedGenres s
  let qs : Option JSString :=
    if genres.length ≠ 0 then
      (encodeURIComponent (List.intercalate (lit ",") genres)).map (lit "?genres=" ++ ·)
    else some []
  match qs with
  | none => s
  | some qs =>
    let s1 := { s with fetched := s.fetched ++ [lit "/api/search" ++ qs] }
    match resp with
    | none => s1
    | some data => renderResults B (lit "Genre Picks") (some (data.map Item.raw)) s1

/-! ## Specification-side definitions -/

/-- Specification of the escaping of one character, in the words of the
specification: each of `&`, `<`, `>` and `"` is replaced by its entity and
every other character is left unchanged. -/
def entityOf (c : Nat) : JSString :=
  if c = 38 then lit "&amp;"
  else if c = 60 then lit "&lt;"
  else if c = 62 then lit "&gt;"
  else if c = 34 then lit "&quot;"
  else [c]

/-- A character that can open or close a tag or an attribute value. -/
def isMarkup (c : Nat) : Prop := c = 60 ∨ c = 62 ∨ c = 34

instance (c : Nat) : Decidable (isMarkup c) := by
  unfold isMarkup
  infer_instance

/-- The part of a card before the genre slot. -/
def cardBefore (B : Builtins) (b : Book) : JSString :=
  seg0 ++ escapeHtml B b.title ++ seg1 ++ escapeHtml B (jsOr b.author (.str [])) ++ seg2

/-- The part of a card after the genre slot. -/
def cardAfter (B : Builtins) (b : Book) : JSString :=
  seg3 ++ toFixed1 B (toNumber B b.avg_rating) ++ seg4 ++ toStr B b.ratings_count
    ++ seg5 ++ toStr B b.id ++ seg6

/-- Opening tags of the genre paragraph. -/
def genreOpen : JSString := lit "<p class=\"card-text\"><small class=\"text-muted\">"

/-- Closing tags of the genre paragraph. -/
def genreClose : JSString := lit "</small></p>"

/-- Specification of the genre paragraph of a card, in the words of the
specification: for more than 50 characters the escaped form of the first 50
followed by `...`, for 1 to 50 characters the escaped form of the whole string,
for the empty string no paragraph. -/
def genreParagraph (B : Builtins) (s : JSString) : JSString :=
  if 50 < s.length then
    genreOpen ++ (escapeHtml B (.str (s.take 50)) ++ lit "...") ++ genreClose
  else if 1 ≤ s.length then genreOpen ++ escapeHtml B (.str s) ++ genreClose
  else []

/-- The `data-tab` identifiers of the tab controls, in document order. -/
def tabIds (s : Page) : List (Option String) := s.tabs.map (·.dataTab)

/-- The object `panels`: the four keys with their elements. -/
def panelList (s : Page) : List (String × Option (List String)) :=
  [("similar", s.panelSimilar), ("genre", s.panelGenre), ("mood", s.panelMood),
   ("explore", s.panelExplore)]

/-- Keys of `panels` whose element exists in the document. -/
def presentPanels (s : Page) : List String :=
  ((panelList s).filter fun p => p.2.isSome).map (·.1)

/-- Number of tab controls with the class `active`. -/
def activeTabCount (s : Page) : Nat :=
  s.tabs.countP fun t => decide ("active" ∈ t.classList)

/-- Number of panels with the class `active`. -/
def activePanelCount (s : Page) : Nat :=
  (panelList s).countP fun p =>
    match p.2 with
    | some cl => decide ("active" ∈ cl)
    | none => false

/-- Number of panels without the class `d-none`. -/
def visiblePanelCount (s : Page) : Nat :=
  (panelList s).countP fun p =>
    match p.2 with
    | some cl => decide ("d-none" ∉ cl)
    | none => false

/-- A sequence of clicks on tab controls, given by their indices. -/
def clicks (cs : List Nat) (s : Page) : Page := cs.foldl (fun s j => clickTab j s) s

/-- A page with the given tab identifiers, no tab or panel marked, and the
four panels present. -/
def tabsPage (ids : List (Option String)) : Page :=
  { tabs := ids.map fun d => { dataTab := d, classList := ["tab-card"], ariaSelected := none }
    panelSimilar := some ["panel"], panelGenre := some ["panel"], panelMood := some ["panel"],
    panelExplore := some ["panel"], textarea := none, textareaFocused := false, errEl := none,
    genreChecked := [], resultsGrid := none, resultsTitle := none, fetched := [],
    rendered := [] }

/-- Scan for unpaired surrogates; the flag says that a leading surrogate waits
for its trailing half. -/
def wellFormedFrom : Bool → JSString → Bool
  | false, [] => true
  | true, [] => false
  | false, c :: rest =>
    if c < 55296 ∨ 57343 < c then wellFormedFrom false rest
    else if 56320 ≤ c then false
    else wellFormedFrom true rest
  | true, d :: rest =>
    if 56320 ≤ d ∧ d ≤ 57343 then wellFormedFrom false rest else false

/-- A string is well formed when it has no unpaired surrogate: every leading
surrogate is followed by a trailing one and every trailing one follows a
leading one. -/
def isWellFormed (s : JSString) : Bool := wellFormedFrom false s

/-- The number written by a string of decimal digits. -/
def digitsValue : JSString → Nat
  | [] => 0
  | d :: ds => (d - 48) * 10 ^ ds.length + digitsValue ds

/-- Number of places of `s` at which `pat` occurs. -/
def occurrences (pat s : JSString) : Nat :=
  (s.tails.filter fun t => pat.isPrefixOf t).length

/-- No end piece of the string is a proper beginning of `pat`: whether `pat`
occurs at a place of the string does not depend on what follows the string. -/
def settled (pat : JSString) : JSString → Bool
  | [] => true
  | c :: a =>
    !((c :: a).isPrefixOf pat && decide ((c :: a).length < pat.length)) && settled pat a

/-- Opening tag of a card, the first tag of the card template. -/
def cardOpen : JSString := lit "<div class=\"col-md-4 mb-4\">"

/-- Opening tag of the notice for an empty result. -/
def noticeOpen : JSString := lit "<div class=\"alert alert-info\">"

/-! ## Sample data -/

/-- A stand-in for the two host conversions, used to evaluate the model on
inputs that reach neither of them. -/
def hostStub : Builtins := ⟨fun _ => [], fun _ => .nan⟩

/-- The double nearest to 4.2, which is 4728779608739021 / 2^50. -/
def double4_2 : ℚ := mkRat 4728779608739021 1125899906842624

/-- The item of the response
`[{"id":1,"title":"<b>X</b>","author":"A","score":4.2,"genres":"g1,g2","ratings_count":10}]`. -/
def sampleItem : Item :=
  { id := .num (.fin 1)
    title := .str (lit "<b>X</b>")
    author := .str (lit "A")
    genres := .str (lit "g1,g2")
    avg_rating := .undefined
    score := .num (.fin double4_2)
    ratings_count := .num (.fin 10) }

/-- The card expected for `sampleItem`. -/
def sampleCard : JSString := lit "\n            <div class=\"col-md-4 mb-4\">\n                <div class=\"card h-100 soft-card\">\n                    <div class=\"card-body\">\n                        <h5 class=\"card-title\">&lt;b&gt;X&lt;/b&gt;</h5>\n                        <p class=\"card-text text-muted\">by A</p>\n                        <p class=\"card-text\"><small class=\"text-muted\">g1,g2</small></p>\n                        <div class=\"mb-2\">\n                            <span class=\"badge bg-warning text-dark\"><i class=\"fa-solid fa-star me-1\"></i> 4.2</span>\n                            <span class=\"badge bg-secondary\">10 ratings</span>\n                        </div>\n                        <a href=\"/book/1\" class=\"btn btn-sm btn-primary\"><i class=\"fa-solid fa-circle-info me-1\"></i> View Details</a>\n                    </div>\n                </div>\n            </div>"

/-- A page with a results grid and a results heading and nothing else. -/
def resultsPage : Page :=
  { tabs := [], panelSimilar := none, panelGenre := none, panelMood := none,
    panelExplore := none, textarea := none, textareaFocused := false, errEl := none,
    genreChecked := [], resultsGrid := some [], resultsTitle := some [], fetched := [],
    rendered := [] }

/-- The book of the sample response with the markup of the notice as its
ratings count. -/
def noticeBook : Book := { sampleItem.raw with ratings_count := .str noResults }

/-- The book of the sample response with the opening tag of a card as its
ratings count. -/
def cardTagBook : Book := { sampleItem.raw with ratings_count := .str cardOpen }

/-- A book whose text fields are full of markup characters. -/
def scriptBook : Book :=
  { id := .num (.fin 2)
    title := .str (lit "<script>alert(\"x\")</script>")
    author := .str (lit "\"><img src=x>")
    genres := .str (lit "<b>&\"")
    avg_rating := .str (lit "<")
    ratings_count := .num (.fin 0) }

/-! ## Lemmas on escaping -/

theorem replaceSpecials_cons (c : Nat) (s : JSString) :
    replaceSpecials (c :: s) = entityOf c ++ replaceSpecials s := by
  rw [replaceSpecials]
  congr 1
  by_cases h1 : c = 38
  · subst h1; decide
  by_cases h2 : c = 60
  · subst h2; decide
  by_cases h3 : c = 62
  · subst h3; decide
  by_cases h4 : c = 34
  · subst h4; decide
  simp [isSpecial, entityOf, h1, h2, h3, h4]

theorem replaceSpecials_eq_flatMap (s : JSString) :
    replaceSpecials s = s.flatMap entityOf := by
  induction s with
  | nil => rfl
  | cons c s ih => rw [replaceSpecials_cons, ih]; simp [List.flatMap_cons]

theorem replaceSpecials_append (s t : JSString) :
    replaceSpecials (s ++ t) = replaceSpecials s ++ replaceSpecials t := by
  simp [replaceSpecials_eq_flatMap, List.flatMap_append]

theorem entityOf_cases (c : Nat) :
    entityOf c = lit "&amp;" ∨ entityOf c = lit "&lt;" ∨ entityOf c = lit "&gt;"
      ∨ entityOf c = lit "&quot;" ∨ (entityOf c = [c] ∧ c ≠ 38 ∧ ¬ isMarkup c) := by
  unfold entityOf isMarkup
  by_cases h1 : c = 38
  · simp [h1]
  by_cases h2 : c = 60
  · simp [h2]
  by_cases h3 : c = 62
  · simp [h3]
  by_cases h4 : c = 34
  · simp [h4]
  simp [h1, h2, h3, h4]

theorem not_markup_of_mem_entityOf (c d : Nat) (h : d ∈ entityOf c) : ¬ isMarkup d := by
  rcases entityOf_cases c with h1 | h1 | h1 | h1 | ⟨h1, _, h3⟩ <;> rw [h1] at h
  · revert d; decide
  · revert d; decide
  · revert d; decide
  · revert d; decide
  · simp at h; subst h; exact h3

theorem not_markup_of_mem_replaceSpecials (s : JSString) (d : Nat)
    (h : d ∈ replaceSpecials s) : ¬ isMarkup d := by
  rw [replaceSpecials_eq_flatMap, List.mem_flatMap] at h
  obtain ⟨c, _, hc⟩ := h
  exact not_markup_of_mem_entityOf c d hc

theorem eq_of_split_at_head {L pre rest : List Nat} {x : Nat} (hx : x ∉ L.tail)
    (h : L = pre ++ x :: rest) : pre = [] ∧ L = x :: rest := by
  cases pre with
  | nil => exact ⟨rfl, by simpa using h⟩
  | cons p pre =>
    exfalso
    apply hx
    rw [h]
    simp

/-- An ampersand that starts inside the escaped form of one character starts
that character's entity. -/
theorem amp_in_entityOf (c : Nat) (pre rest : List Nat) (h : entityOf c = pre ++ 38 :: rest) :
    rest = lit "amp;" ∨ rest = lit "lt;" ∨ rest = lit "gt;" ∨ rest = lit "quot;" := by
  rcases entityOf_cases c with h1 | h1 | h1 | h1 | ⟨h1, h2, _⟩ <;> rw [h1] at h
  · have := (eq_of_split_at_head (by decide) h).2
    left
    exact (List.cons.inj this).2.symm
  · have := (eq_of_split_at_head (by decide) h).2
    right; left
    exact (List.cons.inj this).2.symm
  · have := (eq_of_split_at_head (by decide) h).2
    right; right; left
    exact (List.cons.inj this).2.symm
  · have := (eq_of_split_at_head (by decide) h).2
    right; right; right
    exact (List.cons.inj this).2.symm
  · have := (eq_of_split_at_head (by simp) h).2
    exact absurd (List.cons.inj this).1 h2

theorem amp_begins_entity (s pre post : List Nat) (h : replaceSpecials s = pre ++ 38 :: post) :
    lit "amp;" <+: post ∨ lit "lt;" <+: post ∨ lit "gt;" <+: post ∨ lit "quot;" <+: post := by
  induction s generalizing pre with
  | nil => simp [replaceSpecials] at h
  | cons c s ih =>
    rw [replaceSpecials_cons, List.append_eq_append_iff] at h
    rcases h with ⟨a, _, ha⟩ | ⟨r, hr, hr2⟩
    · exact ih a ha
    · cases r with
      | nil => exact ih [] (by simpa using hr2.symm)
      | cons x r =>
        simp only [List.cons_append, List.cons.injEq] at hr2
        obtain ⟨hx, hpost⟩ := hr2
        subst hx
        rcases amp_in_entityOf c pre r hr with h1 | h1 | h1 | h1 <;> subst h1 <;> subst hpost
        · exact Or.inl (List.prefix_append _ _)
        · exact Or.inr (Or.inl (List.prefix_append _ _))
        · exact Or.inr (Or.inr (Or.inl (List.prefix_append _ _)))
        · exact Or.inr (Or.inr (Or.inr (List.prefix_append _ _)))

/-! ## Lemmas on number formatting -/

theorem digitChar_range : ∀ d < 10, 48 ≤ (Nat.digitChar d).toNat ∧ (Nat.digitChar d).toNat ≤ 57 := by
  decide

theorem toDigitsCore_range (fuel n : Nat) (ds : List Char)
    (hds : ∀ c ∈ ds, 48 ≤ c.toNat ∧ c.toNat ≤ 57) :
    ∀ c ∈ Nat.toDigitsCore 10 fuel n ds, 48 ≤ c.toNat ∧ c.toNat ≤ 57 := by
  induction fuel generalizing n ds with
  | zero => simpa [Nat.toDigitsCore] using hds
  | succ fuel ih =>
    have hcons : ∀ c ∈ Nat.digitChar (n % 10) :: ds, 48 ≤ c.toNat ∧ c.toNat ≤ 57 := by
      intro c hc
      rcases List.mem_cons.1 hc with h | h
      · subst h; exact digitChar_range _ (Nat.mod_lt _ (by decide))
      · exact hds c h
    rw [Nat.toDigitsCore]
    split
    · exact hcons
    · exact ih _ _ hcons

theorem decimal_range (n c : Nat) (h : c ∈ decimal n) : 48 ≤ c ∧ c ≤ 57 := by
  unfold decimal Nat.toDigits at h
  obtain ⟨ch, hch, rfl⟩ := List.mem_map.1 h
  exact toDigitsCore_range _ _ [] (by simp) ch hch

theorem decimal_ne_nil (n : Nat) : decimal n ≠ [] := by
  have : ∀ fuel n ds, ds ≠ [] → Nat.toDigitsCore 10 fuel n ds ≠ [] := by
    intro fuel
    induction fuel with
    | zero => intro n ds h; simpa [Nat.toDigitsCore] using h
    | succ fuel ih =>
      intro n ds _
      rw [Nat.toDigitsCore]
      split
      · simp
      · exact ih _ _ (by simp)
  unfold decimal Nat.toDigits
  rw [Nat.toDigitsCore]
  split
  · simp
  · simpa using this _ _ _ (by simp)

theorem digitChar_value : ∀ d < 10, (Nat.digitChar d).toNat - 48 = d := by
  decide

theorem toDigitsCore_value (fuel n : Nat) (ds : List Char) (h : n < fuel) :
    digitsValue ((Nat.toDigitsCore 10 fuel n ds).map Char.toNat)
      = n * 10 ^ ds.length + digitsValue (ds.map Char.toNat) := by
  induction fuel generalizing n ds with
  | zero => omega
  | succ fuel ih =>
    have hd := digitChar_value (n % 10) (Nat.mod_lt _ (by decide))
    rw [Nat.toDigitsCore]
    split
    · rename_i h0
      have hn : n % 10 = n := by omega
      simp only [List.map_cons, digitsValue, List.length_map, hd]
      rw [hn]
    · rename_i h0
      rw [ih (n / 10) _ (by omega)]
      simp only [List.map_cons, digitsValue, List.length_map, List.length_cons, hd, Nat.pow_succ]
      have hn : n = 10 * (n / 10) + n % 10 := (Nat.div_add_mod n 10).symm
      generalize n / 10 = a at hn ⊢
      generalize n % 10 = b at hn ⊢
      subst hn
      ring

/-- The digits of `decimal n` write the number `n`. -/
theorem decimal_value (n : Nat) : digitsValue (decimal n) = n := by
  unfold decimal Nat.toDigits
  rw [toDigitsCore_value _ _ _ (Nat.lt_succ_self n)]
  simp [digitsValue]

theorem decimal_digit : ∀ d < 10, decimal d = [48 + d] := by
  decide

theorem not_markup_of_mem_decimal (n c : Nat) (h : c ∈ decimal n) : ¬ isMarkup c := by
  have := decimal_range n c h
  unfold isMarkup
  omega

theorem not_markup_of_all {l : List Nat} (hl : l.all (fun c => decide (¬ isMarkup c)) = true)
    (c : Nat) (h : c ∈ l) : ¬ isMarkup c := by
  have := List.all_eq_true.1 hl c h
  simpa using this

theorem not_markup_of_mem_sign (b : Prop) [Decidable b] (c : Nat)
    (h : c ∈ (if b then lit "-" else [])) : ¬ isMarkup c := by
  split at h
  · exact not_markup_of_all (by decide) c h
  · simp at h

theorem not_markup_of_mem_numToString (B : Builtins) (n : JSNum) (c : Nat)
    (h : c ∈ numToString B n) : ¬ isMarkup c := by
  cases n with
  | nan => exact not_markup_of_all (l := lit "NaN") (by decide) c h
  | inf neg =>
    cases neg
    · exact not_markup_of_all (l := lit "Infinity") (by decide) c h
    · exact not_markup_of_all (l := lit "-Infinity") (by decide) c h
  | fin q =>
    simp only [numToString] at h
    split at h
    · rcases List.mem_append.1 h with h1 | h1
      · exact not_markup_of_mem_sign _ c h1
      · exact not_markup_of_mem_decimal _ _ h1
    · obtain ⟨k, _, rfl⟩ := List.mem_map.1 h
      cases k with
      | digit d =>
        have := d.isLt
        simp only [NumChar.code, isMarkup]
        omega
      | dot => decide
      | minus => decide
      | plus => decide
      | e => decide

theorem not_markup_of_mem_toFixed1 (B : Builtins) (n : JSNum) (c : Nat)
    (h : c ∈ toFixed1 B n) : ¬ isMarkup c := by
  cases n with
  | nan => exact not_markup_of_mem_numToString B .nan c (by simpa [toFixed1] using h)
  | inf neg => exact not_markup_of_mem_numToString B (.inf neg) c (by simpa [toFixed1] using h)
  | fin q =>
    simp only [toFixed1] at h
    rcases List.mem_append.1 h with h1 | h1
    · exact not_markup_of_mem_sign _ c h1
    · split at h1
      · exact not_markup_of_mem_numToString B _ c h1
      · rcases List.mem_append.1 h1 with h2 | h2
        · rcases List.mem_append.1 h2 with h3 | h3
          · exact not_markup_of_mem_decimal _ _ h3
          · exact not_markup_of_all (l := lit ".") (by decide) c h3
        · exact not_markup_of_mem_decimal _ _ h2

/-- The digits chosen by `toFixed1` are those of the tenth nearest to the
magnitude, the upper one on a tie. -/
theorem nearestTenth_spec (q : ℚ) :
    (nearestTenth q : ℚ) / 10 - |q| ≤ 1 / 20 ∧ |q| - (nearestTenth q : ℚ) / 10 < 1 / 20 := by
  have hd : (0 : ℚ) < q.den := by exact_mod_cast q.den_pos
  have habs : |q| = (q.num.natAbs : ℚ) / q.den := by
    have hn : ((q.num.natAbs : ℤ) : ℚ) = |(q.num : ℚ)| := by
      rw [← Int.abs_eq_natAbs, Int.cast_abs]
    conv_lhs => rw [← Rat.num_div_den q]
    rw [abs_div, abs_of_pos hd, ← hn, Int.cast_natCast]
  have h1 : 2 * q.den * nearestTenth q ≤ 20 * q.num.natAbs + q.den :=
    Nat.mul_div_le _ _
  have h2 : 20 * q.num.natAbs + q.den < 2 * q.den * (nearestTenth q + 1) := by
    have := Nat.lt_mul_div_succ (20 * q.num.natAbs + q.den) (show 0 < 2 * q.den by
      have := q.den_pos; omega)
    simpa [nearestTenth, Nat.mul_add] using this
  have h1q : (2 * q.den * nearestTenth q : ℚ) ≤ 20 * q.num.natAbs + q.den := by exact_mod_cast h1
  have h2q : (20 * q.num.natAbs + q.den : ℚ) < 2 * q.den * (nearestTenth q + 1) := by
    exact_mod_cast h2
  rw [habs]
  constructor
  · rw [div_sub_div _ _ (by norm_num) (ne_of_gt hd), div_le_div_iff₀ (by positivity) (by norm_num)]
    nlinarith
  · rw [div_sub_div _ _ (ne_of_gt hd) (by norm_num), div_lt_div_iff₀ (by positivity) (by norm_num)]
    nlinarith

/-! ## Lemmas on the card -/

theorem renderCard_eq (B : Builtins) (b : Book) :
    renderCard B b = cardBefore B b ++ genreSlot B (genreText b.genres) ++ cardAfter B b := by
  simp [renderCard, cardBefore, cardAfter, List.append_assoc]

theorem genreSlot_str (B : Builtins) (s : JSString) :
    genreSlot B (genreText (.str s)) = genreParagraph B s := by
  unfold genreText genreParagraph genreSlot
  by_cases h50 : 50 < s.length
  · have hs : s ≠ [] := by intro h; simp [h] at h50
    simp [truthy, h50, hs, escapeHtml, toStr, replaceSpecials_append, genreOpen, genreClose]
    rfl
  · by_cases h1 : 1 ≤ s.length
    · have hs : s ≠ [] := by intro h; simp [h] at h1
      simp [truthy, h50, h1, hs, genreOpen, genreClose]
    · have hs : s = [] := by
        cases s with
        | nil => rfl
        | cons c s => simp at h1
      subst hs
      simp [truthy]

theorem seg5_eq :
    seg5 = lit " ratings" ++ lit "</span>\n                        </div>\n                        <a href=\"" ++ lit "/book/" := by
  decide

theorem small_iff (q : ℚ) : ¬ 10 ^ 21 * q.den ≤ q.num.natAbs ↔ |q| < 10 ^ 21 := by
  have hd : (0 : ℚ) < q.den := by exact_mod_cast q.den_pos
  have hn : ((q.num.natAbs : ℤ) : ℚ) = |(q.num : ℚ)| := by
    rw [← Int.abs_eq_natAbs, Int.cast_abs]
  have habs : |q| = (q.num.natAbs : ℚ) / q.den := by
    conv_lhs => rw [← Rat.num_div_den q]
    rw [abs_div, abs_of_pos hd, ← hn, Int.cast_natCast]
  rw [habs, div_lt_iff₀ hd, not_le]
  constructor
  · intro h
    exact_mod_cast h
  · intro h
    exact_mod_cast h

theorem toFixed1_small (B : Builtins) (q : ℚ) (h : |q| < 10 ^ 21) :
    toFixed1 B (.fin q) =
      (if q < 0 then lit "-" else []) ++ decimal (nearestTenth q / 10)
        ++ [46, 48 + nearestTenth q % 10] := by
  have hs := (small_iff q).2 h
  have hneg : q.num < 0 ↔ q < 0 := Rat.num_neg
  simp only [toFixed1, if_neg hs, decimal_digit _ (Nat.mod_lt (nearestTenth q) (by decide))]
  by_cases hq : q < 0
  · simp [hq, hneg.2 hq, lit]
  · simp [hq, mt hneg.1 hq, lit]

theorem count_eq_zero_of_safe {l : List Nat} {c : Nat} (h : ∀ d ∈ l, ¬ isMarkup d)
    (hc : isMarkup c) : l.count c = 0 :=
  List.count_eq_zero.2 fun hmem => h c hmem hc

theorem truthy_genreText (g : JSVal) : truthy (genreText g) = truthy g := by
  unfold genreText
  cases hg : truthy g with
  | false => simp [truthy]
  | true =>
    simp only [if_true]
    cases g with
    | str s =>
      by_cases h50 : s.length > 50
      · simp [h50, truthy, lit]
      · simp [h50, hg]
    | undefined => exact hg
    | null => exact hg
    | bool b => exact hg
    | num n => exact hg

theorem count_genreSlot (B : Builtins) (g : JSVal) (c : Nat) (hc : isMarkup c) :
    (genreSlot B (genreText g)).count c
      = if truthy g then genreOpen.count c + genreClose.count c else 0 := by
  unfold genreSlot
  rw [truthy_genreText]
  cases truthy g with
  | false => simp
  | true =>
    have h0 : (escapeHtml B (genreText g)).count c = 0 :=
      count_eq_zero_of_safe (not_markup_of_mem_replaceSpecials _) hc
    simp [List.count_append, h0, genreOpen, genreClose]

/-- Number of occurrences of a markup character in a card: those of the
template, those of the two fields that are not escaped, and those of the genre
paragraph when the genres are truthy. -/
theorem count_renderCard_any (B : Builtins) (b : Book) (c : Nat) (hc : isMarkup c) :
    (renderCard B b).count c
      = seg0.count c + seg1.count c + seg2.count c + seg3.count c + seg4.count c
        + seg5.count c + seg6.count c
        + (toStr B b.ratings_count).count c + (toStr B b.id).count c
        + (if truthy b.genres then genreOpen.count c + genreClose.count c else 0) := by
  have h1 : (escapeHtml B b.title).count c = 0 :=
    count_eq_zero_of_safe (not_markup_of_mem_replaceSpecials _) hc
  have h2 : (escapeHtml B (jsOr b.author (.str []))).count c = 0 :=
    count_eq_zero_of_safe (not_markup_of_mem_replaceSpecials _) hc
  have h3 : (toFixed1 B (toNumber B b.avg_rating)).count c = 0 :=
    count_eq_zero_of_safe (not_markup_of_mem_toFixed1 B _) hc
  simp only [renderCard, List.count_append, h1, h2, h3, count_genreSlot B _ c hc]
  omega

theorem count_renderCard (B : Builtins) (b : Book) (i k : JSNum) (hid : b.id = .num i)
    (hk : b.ratings_count = .num k) (c : Nat) (hc : isMarkup c) :
    (renderCard B b).count c
      = seg0.count c + seg1.count c + seg2.count c + seg3.count c + seg4.count c
        + seg5.count c + seg6.count c
        + (if truthy b.genres then genreOpen.count c + genreClose.count c else 0) := by
  have h4 : (toStr B b.ratings_count).count c = 0 := by
    rw [hk]
    exact count_eq_zero_of_safe (not_markup_of_mem_numToString B k) hc
  have h5 : (toStr B b.id).count c = 0 := by
    rw [hid]
    exact count_eq_zero_of_safe (not_markup_of_mem_numToString B i) hc
  simp only [count_renderCard_any B b c hc, h4, h5, Nat.add_zero]

/-! ## Lemmas on the request handlers -/

theorem trim_eq_nil_iff (v : JSString) : trim v = [] ↔ ∀ c ∈ v, isWhiteSpace c = true := by
  unfold trim
  rw [List.reverse_eq_nil_iff, List.dropWhile_eq_nil_iff]
  constructor
  · intro h
    by_cases hd : v.dropWhile isWhiteSpace = []
    · exact List.dropWhile_eq_nil_iff.1 hd
    · have h1 := List.head_dropWhile_not isWhiteSpace v hd
      have h2 := h _ (List.mem_reverse.2 (List.head_mem hd))
      rw [h2] at h1
      exact absurd h1 (by simp)
  · intro h x hx
    have hd : v.dropWhile isWhiteSpace = [] := List.dropWhile_eq_nil_iff.2 h
    rw [hd] at hx
    simp at hx

theorem encodeFrom_isSome_eq (p : Option Nat) (s : JSString) :
    (encodeFrom p s).isSome = wellFormedFrom p.isSome s := by
  induction s generalizing p with
  | nil => cases p <;> rfl
  | cons c s ih =>
    cases p with
    | none =>
      have hu : isUnreserved c = true → c < 55296 ∨ 57343 < c := by
        intro h
        simp only [isUnreserved, Bool.or_eq_true, Bool.and_eq_true, decide_eq_true_eq] at h
        omega
      have h0 := ih none
      have h1 := ih (some c)
      simp only [Option.isSome_none, Option.isSome_some] at h0 h1
      simp only [encodeFrom, wellFormedFrom, Option.isSome_none]
      by_cases hun : isUnreserved c = true
      · rw [if_pos hun, if_pos (hu hun)]
        simpa using h0
      · rw [if_neg hun]
        by_cases hs : c < 55296 ∨ 57343 < c
        · rw [if_pos hs, if_pos hs]
          simpa using h0
        · rw [if_neg hs, if_neg hs]
          by_cases ht : 56320 ≤ c
          · rw [if_pos ht, if_pos ht]
            rfl
          · rw [if_neg ht, if_neg ht]
            exact h1
    | some h =>
      have h0 := ih none
      simp only [Option.isSome_none] at h0
      simp only [encodeFrom, wellFormedFrom, Option.isSome_some]
      by_cases ht : 56320 ≤ c ∧ c ≤ 57343
      · rw [if_pos ht, if_pos ht]
        simpa using h0
      · rw [if_neg ht, if_neg ht]
        rfl

theorem encodeURIComponent_isSome (s : JSString) :
    (encodeURIComponent s).isSome = isWellFormed s :=
  encodeFrom_isSome_eq none s

theorem renderResults_fetched (B : Builtins) (title : JSString) (books : Option (List Book))
    (s : Page) : (renderResults B title books s).fetched = s.fetched := by
  unfold renderResults
  cases s.resultsGrid <;> cases books with
  | none => simp
  | some bs => cases bs <;> simp

theorem renderResults_errEl (B : Builtins) (title : JSString) (books : Option (List Book))
    (s : Page) : (renderResults B title books s).errEl = s.errEl := by
  unfold renderResults
  cases s.resultsGrid <;> cases books with
  | none => simp
  | some bs => cases bs <;> simp

theorem classRemove_not_mem (c : String) (l : List String) : c ∉ classRemove c l := by
  simp [classRemove]

theorem classAdd_mem (c : String) (l : List String) : c ∈ classAdd c l := by
  unfold classAdd
  split <;> simp [*]

/-! ## Lemmas on the tab controls -/

theorem mem_classAdd_iff (c d : String) (l : List String) :
    d ∈ classAdd c l ↔ d = c ∨ d ∈ l := by
  unfold classAdd
  split
  · constructor
    · exact Or.inr
    · rintro (h | h)
      · subst h; assumption
      · exact h
  · simp [or_comm]

theorem mem_classRemove_iff (c d : String) (l : List String) :
    d ∈ classRemove c l ↔ d ≠ c ∧ d ∈ l := by
  simp [classRemove, and_comm]

theorem mem_classToggle_iff (c : String) (b : Bool) (l : List String) :
    c ∈ classToggle c b l ↔ b = true := by
  cases b <;> simp [classToggle, mem_classAdd_iff, mem_classRemove_iff]

theorem tabIds_setActiveTab (n : Option String) (s : Page) :
    tabIds (setActiveTab n s) = tabIds s := by
  simp [tabIds, setActiveTab, List.map_map, Function.comp_def]

theorem tabIds_clickTab (j : Nat) (s : Page) : tabIds (clickTab j s) = tabIds s := by
  unfold clickTab
  split
  · exact tabIds_setActiveTab _ s
  · rfl

theorem tabIds_clicks (cs : List Nat) (s : Page) : tabIds (clicks cs s) = tabIds s := by
  induction cs generalizing s with
  | nil => rfl
  | cons c cs ih =>
    show tabIds (clicks cs (clickTab c s)) = tabIds s
    rw [ih, tabIds_clickTab]

theorem presentPanels_setActiveTab (n : Option String) (s : Page) :
    presentPanels (setActiveTab n s) = presentPanels s := by
  simp only [presentPanels, panelList, setActiveTab, setPanel]
  cases s.panelSimilar <;> cases s.panelGenre <;> cases s.panelMood <;> cases s.panelExplore <;>
    rfl

theorem presentPanels_clickTab (j : Nat) (s : Page) :
    presentPanels (clickTab j s) = presentPanels s := by
  unfold clickTab
  split
  · exact presentPanels_setActiveTab _ s
  · rfl

theorem presentPanels_clicks (cs : List Nat) (s : Page) :
    presentPanels (clicks cs s) = presentPanels s := by
  induction cs generalizing s with
  | nil => rfl
  | cons c cs ih =>
    show presentPanels (clicks cs (clickTab c s)) = presentPanels s
    rw [ih, presentPanels_clickTab]

theorem presentPanels_nodup (s : Page) : (presentPanels s).Nodup := by
  have h : ((panelList s).map (·.1)).Nodup := by
    simp only [panelList, List.map_cons, List.map_nil]
    decide
  exact h.sublist (List.Sublist.map _ (List.filter_sublist _))

/-- After `setActiveTab`, a tab control has the class `active` exactly when its
identifier is the given one, and `aria-selected` says the same. -/
theorem tab_after_setActiveTab (n : Option String) (s : Page) (t : Tab)
    (ht : t ∈ (setActiveTab n s).tabs) :
    ("active" ∈ t.classList ↔ t.dataTab = n) ∧
    t.ariaSelected = some (if "active" ∈ t.classList then "true" else "false") := by
  simp only [setActiveTab, List.mem_map] at ht
  obtain ⟨t0, _, rfl⟩ := ht
  have h : "active" ∈ classToggle "active" (decide (t0.dataTab = n)) t0.classList
      ↔ t0.dataTab = n := by
    rw [mem_classToggle_iff]
    simp
  refine ⟨h, ?_⟩
  show some (if t0.dataTab = n then "true" else "false") = _
  by_cases hn : t0.dataTab = n
  · rw [if_pos hn, if_pos (h.2 hn)]
  · rw [if_neg hn, if_neg (mt h.1 hn)]

theorem activeTabCount_setActiveTab (n : Option String) (s : Page) :
    activeTabCount (setActiveTab n s) = (tabIds s).countP fun d => decide (d = n) := by
  simp only [activeTabCount, setActiveTab, tabIds, List.countP_map]
  apply List.countP_congr
  intro t _
  simp [mem_classToggle_iff]

theorem countP_eq_one_of_nodup {α : Type} [DecidableEq α] (l : List α) (hl : l.Nodup) (a : α)
    (ha : a ∈ l) : l.countP (fun d => decide (d = a)) = 1 := by
  have h := List.count_eq_one_of_mem hl ha
  rw [List.count_eq_countP] at h
  rw [← h]
  apply List.countP_congr
  intro d _
  simp

theorem activeIndex_setActiveTab (n : Option String) (s : Page) :
    activeIndex (setActiveTab n s) = (tabIds s).findIdx? fun d => decide (d = n) := by
  simp only [activeIndex, setActiveTab, tabIds, List.findIdx?_map]
  congr 1
  funext t
  simp [mem_classToggle_iff]

theorem findIdx?_of_nodup {α : Type} [DecidableEq α] (l : List α) (hl : l.Nodup) (j : Nat)
    (a : α) (hj : l[j]? = some a) : l.findIdx? (fun d => decide (d = a)) = some j := by
  obtain ⟨hlt, hja⟩ := List.getElem?_eq_some_iff.1 hj
  rw [List.findIdx?_eq_some_iff_getElem]
  refine ⟨hlt, by simp [hja], ?_⟩
  intro k hk hka
  have hka2 : l[k] = a := by simpa using hka
  have hkj : k = j := (hl.getElem_inj_iff).1 (hka2.trans hja.symm)
  omega

theorem activeIndex_lt (s : Page) (i : Nat) (h : activeIndex s = some i) : i < s.tabs.length :=
  (List.findIdx?_eq_some_iff_findIdx_eq.1 h).1

theorem clickTab_of_lt (j : Nat) (s : Page) (hj : j < s.tabs.length) :
    ∃ t, s.tabs[j]? = some t ∧ (tabIds s)[j]? = some t.dataTab
      ∧ clickTab j s = setActiveTab t.dataTab s := by
  refine ⟨s.tabs[j], List.getElem?_eq_getElem hj, ?_, ?_⟩
  · simp [tabIds, List.getElem?_eq_getElem hj]
  · simp [clickTab, List.getElem?_eq_getElem hj]

theorem length_tabs_clickTab (j : Nat) (s : Page) :
    (clickTab j s).tabs.length = s.tabs.length := by
  have h := congrArg List.length (tabIds_clickTab j s)
  simpa [tabIds] using h

theorem clickTab_activates (j : Nat) (s : Page) (hj : j < s.tabs.length) :
    ∃ t, (clickTab j s).tabs[j]? = some t ∧ "active" ∈ t.classList := by
  have hlt : j < (clickTab j s).tabs.length := by rw [length_tabs_clickTab]; exact hj
  refine ⟨(clickTab j s).tabs[j], List.getElem?_eq_getElem hlt, ?_⟩
  obtain ⟨t, _, hid, hc⟩ := clickTab_of_lt j s hj
  have hmem : (clickTab j s).tabs[j] ∈ (setActiveTab t.dataTab s).tabs := by
    rw [← hc]
    exact List.getElem_mem _
  rw [(tab_after_setActiveTab t.dataTab s _ hmem).1]
  have h1 : (tabIds (clickTab j s))[j]? = some t.dataTab := by rw [tabIds_clickTab]; exact hid
  simpa [tabIds, List.getElem?_eq_getElem hlt] using h1

theorem activeIndex_clickTab (j : Nat) (s : Page) (hn : (tabIds s).Nodup)
    (hj : j < s.tabs.length) :
    activeIndex (clickTab j s) = some j ∧ activeTabCount (clickTab j s) = 1 := by
  obtain ⟨t, _, hid, hc⟩ := clickTab_of_lt j s hj
  rw [hc, activeIndex_setActiveTab, activeTabCount_setActiveTab]
  exact ⟨findIdx?_of_nodup _ hn j _ hid,
    countP_eq_one_of_nodup _ hn _ (List.getElem?_mem hid)⟩

theorem keydown_right (s : Page) (i : Nat) (h : activeIndex s = some i) :
    keydown "ArrowRight" s = clickTab ((i + 1) % s.tabs.length) s := by
  simp [keydown, h]

theorem left_index (i n : Nat) (h : i < n) :
    Int.toNat (Int.tmod ((i : Int) - 1 + n) n) = (i + n - 1) % n ∧
    (((i + n - 1) % n : Nat) : Int) = ((i : Int) - 1 + n) % n := by
  have h1 : ((i : Int) - 1 + n) = ((i + n - 1 : Nat) : Int) := by omega
  rw [h1, Int.tmod_eq_emod (Int.ofNat_nonneg _) (Int.ofNat_nonneg _), ← Int.natCast_mod]
  exact ⟨Int.toNat_natCast _, rfl⟩

theorem keydown_left (s : Page) (i : Nat) (h : activeIndex s = some i) :
    keydown "ArrowLeft" s = clickTab ((i + s.tabs.length - 1) % s.tabs.length) s := by
  have hlt := activeIndex_lt s i h
  have hk : ("ArrowLeft" = "ArrowRight") = False := by decide
  simp only [keydown, h, hk, if_false, if_true, (left_index i s.tabs.length hlt).1]

theorem keydown_right_iterate (s : Page) (i : Nat) (hn : (tabIds s).Nodup)
    (h : activeIndex s = some i) (m : Nat) :
    activeIndex ((keydown "ArrowRight")^[m] s) = some ((i + m) % s.tabs.length) ∧
    tabIds ((keydown "ArrowRight")^[m] s) = tabIds s := by
  have hlt := activeIndex_lt s i h
  induction m with
  | zero => exact ⟨by simpa [Nat.mod_eq_of_lt hlt] using h, rfl⟩
  | succ m ih =>
    obtain ⟨h1, h2⟩ := ih
    rw [Function.iterate_succ_apply']
    have hlen : ((keydown "ArrowRight")^[m] s).tabs.length = s.tabs.length := by
      simpa [tabIds] using congrArg List.length h2
    rw [keydown_right _ _ h1, hlen]
    have hpos : 0 < s.tabs.length := by omega
    refine ⟨?_, by rw [tabIds_clickTab, h2]⟩
    have := (activeIndex_clickTab (((i + m) % s.tabs.length + 1) % s.tabs.length) _
      (by rw [h2]; exact hn) (by rw [hlen]; exact Nat.mod_lt _ hpos)).1
    rw [this]
    congr 1
    rw [Nat.mod_add_mod, Nat.add_assoc]

theorem panelList_setActiveTab (n : Option String) (s : Page) :
    panelList (setActiveTab n s)
      = (panelList s).map fun p => (p.1, setPanel p.1 n p.2) := rfl

/-- Classes of a panel after `setActiveTab`: marked and shown exactly when its
key is the tab name. -/
theorem setPanel_classes (key k : String) (el : Option (List String)) (cl : List String)
    (h : setPanel key (some k) el = some cl) :
    ("active" ∈ cl ↔ key = k) ∧ ("d-none" ∉ cl ↔ key = k) := by
  cases el with
  | none => simp [setPanel] at h
  | some cl0 =>
    simp only [setPanel, Option.map_some', Option.some.injEq] at h
    have hne : ("d-none" = "active") = False := by decide
    have hne2 : ("active" = "d-none") = False := by decide
    by_cases hk : key = k
    · rw [if_pos hk] at h
      subst h
      simp [hk, mem_classAdd_iff, mem_classRemove_iff, hne]
    · rw [if_neg hk] at h
      subst h
      simp [hk, mem_classAdd_iff, mem_classRemove_iff, hne]

theorem panel_after_setActiveTab (k : String) (s : Page) (key : String) (cl : List String)
    (h : (key, some cl) ∈ panelList (setActiveTab (some k) s)) :
    ("active" ∈ cl ↔ key = k) ∧ ("d-none" ∉ cl ↔ key = k) := by
  rw [panelList_setActiveTab, List.mem_map] at h
  obtain ⟨p, _, hp⟩ := h
  have h1 : p.1 = key := congrArg Prod.fst hp
  have h2 : setPanel p.1 (some k) p.2 = some cl := congrArg Prod.snd hp
  rw [h1] at h2
  exact setPanel_classes key k p.2 cl h2

theorem panelCounts_setActiveTab (k : String) (s : Page) :
    activePanelCount (setActiveTab (some k) s)
      = (presentPanels s).countP (fun key => decide (key = k)) ∧
    visiblePanelCount (setActiveTab (some k) s)
      = (presentPanels s).countP (fun key => decide (key = k)) := by
  simp only [activePanelCount, visiblePanelCount, panelList_setActiveTab, presentPanels,
    List.countP_map, List.countP_filter]
  constructor <;>
  · apply List.countP_congr
    intro p _
    cases hp : p.2 with
    | none => simp [setPanel, hp]
    | some cl0 =>
      have hs : ∃ cl, setPanel p.1 (some k) p.2 = some cl := by simp [setPanel, hp]
      obtain ⟨cl, hcl⟩ := hs
      have := setPanel_classes p.1 k p.2 cl hcl
      rw [hp] at hcl
      simp [hcl, hp, this.1, this.2]

/-! ## Lemmas on occurrences of a tag -/

theorem occurrences_nil (pat : JSString) (hp : pat ≠ []) : occurrences pat [] = 0 := by
  cases pat with
  | nil => exact absurd rfl hp
  | cons c p => rfl

theorem occurrences_cons (pat : JSString) (c : Nat) (a : JSString) :
    occurrences pat (c :: a)
      = (if pat.isPrefixOf (c :: a) = true then 1 else 0) + occurrences pat a := by
  by_cases h : pat.isPrefixOf (c :: a) = true
  · simp [occurrences, List.tails, List.filter_cons, h, Nat.add_comm]
  · simp [occurrences, List.tails, List.filter_cons, h]

theorem isPrefixOf_append_of_settled (pat t b : JSString)
    (h : ¬ (t <+: pat ∧ t.length < pat.length)) :
    pat.isPrefixOf (t ++ b) = pat.isPrefixOf t := by
  apply Bool.eq_iff_iff.2
  simp only [ List.isPrefixOf_iff_prefix]
  constructor
  · intro hp
    rcases List.prefix_or_prefix_of_prefix hp (List.prefix_append t b) with h1 | h1
    · exact h1
    · have hle := h1.length_le
      have hnl : ¬ t.length < pat.length := fun hl => h ⟨h1, hl⟩
      have heq : t = pat := h1.eq_of_length (by omega)
      rw [heq]
  · intro hp
    exact hp.trans (List.prefix_append t b)

theorem settled_cons (pat : JSString) (c : Nat) (a : JSString) :
    settled pat (c :: a) = true ↔
      ¬ ((c :: a) <+: pat ∧ (c :: a).length < pat.length) ∧ settled pat a = true := by
  rw [settled]
  by_cases hpre : (c :: a) <+: pat
  · have hb : (c :: a).isPrefixOf pat = true := List.isPrefixOf_iff_prefix.2 hpre
    by_cases hlen : (c :: a).length < pat.length
    · simp [hb, hlen, hpre]
    · simp [hb, hlen, hpre]
  · have hb : (c :: a).isPrefixOf pat = false := by
      cases h : (c :: a).isPrefixOf pat with
      | false => rfl
      | true => exact absurd (List.isPrefixOf_iff_prefix.1 h) hpre
    simp [hb, hpre]

/-- Occurrences of a tag in a string followed by another are those in the two
strings, when the first is settled. -/
theorem occurrences_append (pat a b : JSString) (hp : pat ≠ [])
    (ha : settled pat a = true) :
    occurrences pat (a ++ b) = occurrences pat a + occurrences pat b := by
  induction a with
  | nil => simp [occurrences_nil pat hp]
  | cons c a ih =>
    obtain ⟨h1, h2⟩ := (settled_cons pat c a).1 ha
    have h3 := isPrefixOf_append_of_settled pat (c :: a) b h1
    rw [List.cons_append] at h3 ⊢
    rw [occurrences_cons, occurrences_cons, h3, ih h2]
    omega

theorem settled_append (pat a b : JSString) (ha : settled pat a = true)
    (hb : settled pat b = true) : settled pat (a ++ b) = true := by
  induction a with
  | nil => exact hb
  | cons c a ih =>
    obtain ⟨h1, h2⟩ := (settled_cons pat c a).1 ha
    rw [List.cons_append, settled_cons]
    refine ⟨?_, ih h2⟩
    rintro ⟨h3, h4⟩
    apply h1
    refine ⟨(List.prefix_append (c :: a) b).trans h3, ?_⟩
    have : (c :: a).length ≤ (c :: (a ++ b)).length := by simp
    omega

/-- A string of pieces that are all settled is settled, and the occurrences of
a tag in it are those in the pieces. -/
theorem occurrences_flatten (pat : JSString) (hp : pat ≠ []) (ps : List JSString)
    (h : ∀ x ∈ ps, settled pat x = true) :
    settled pat ps.flatten = true ∧
    occurrences pat ps.flatten = (ps.map (occurrences pat)).sum := by
  induction ps with
  | nil => exact ⟨rfl, by simp [occurrences_nil pat hp]⟩
  | cons x ps ih =>
    have hx := h x (List.mem_cons_self _ _)
    obtain ⟨h1, h2⟩ := ih fun y hy => h y (List.mem_cons_of_mem _ hy)
    refine ⟨settled_append pat x _ hx h1, ?_⟩
    simp only [List.flatten_cons, List.map_cons, List.sum_cons]
    rw [occurrences_append pat x _ hp hx, h2]

/-- A string without `<` is settled for a tag and holds no occurrence of it. -/
theorem settled_of_no_lt (p d : JSString) (hd : 60 ∉ d) :
    settled (60 :: p) d = true ∧ occurrences (60 :: p) d = 0 := by
  induction d with
  | nil => exact ⟨rfl, rfl⟩
  | cons c d ih =>
    have hc : c ≠ 60 := fun h => hd (h ▸ List.mem_cons_self _ _)
    obtain ⟨h1, h2⟩ := ih fun h => hd (List.mem_cons_of_mem _ h)
    constructor
    · rw [settled_cons]
      refine ⟨?_, h1⟩
      rintro ⟨h3, _⟩
      obtain ⟨t, ht⟩ := h3
      exact hc (List.cons.inj ht).1
    · rw [occurrences_cons, h2]
      have : (60 :: p).isPrefixOf (c :: d) = false := by
        simp [List.isPrefixOf, Ne.symm hc]
      simp [this]

theorem no_lt_of_safe {l : List Nat} (h : ∀ d ∈ l, ¬ isMarkup d) : 60 ∉ l :=
  fun hm => h 60 hm (Or.inl rfl)

/-- The pieces of a card, static and interpolated, in order. -/
theorem renderCard_pieces (B : Builtins) (b : Book) :
    renderCard B b =
      [seg0, escapeHtml B b.title, seg1, escapeHtml B (jsOr b.author (.str [])), seg2,
        genreSlot B (genreText b.genres), seg3, toFixed1 B (toNumber B b.avg_rating), seg4,
        toStr B b.ratings_count, seg5, toStr B b.id, seg6].flatten := by
  simp [renderCard, List.append_assoc]

theorem genreSlot_pieces (B : Builtins) (g : JSVal) :
    genreSlot B g = if truthy g then [genreOpen, escapeHtml B g, genreClose].flatten else [] := by
  unfold genreSlot
  split <;> simp [genreOpen, genreClose, List.append_assoc]

/-- Occurrences of a tag that starts with `<` in a card whose id and ratings
count are written without `<`: those of the template, with no occurrence in
the genre paragraph when the template's paragraph tags hold none. -/
theorem occurrences_renderCard (B : Builtins) (b : Book) (p : JSString)
    (hs : ∀ x ∈ [seg0, seg1, seg2, seg3, seg4, seg5, seg6, genreOpen, genreClose],
      settled (60 :: p) x = true)
    (hg : occurrences (60 :: p) genreOpen = 0 ∧ occurrences (60 :: p) genreClose = 0)
    (hid : 60 ∉ toStr B b.id) (hk : 60 ∉ toStr B b.ratings_count) :
    settled (60 :: p) (renderCard B b) = true ∧
    occurrences (60 :: p) (renderCard B b)
      = ([seg0, seg1, seg2, seg3, seg4, seg5, seg6].map (occurrences (60 :: p))).sum := by
  have hp : (60 :: p) ≠ [] := by simp
  have e1 := settled_of_no_lt p _ (no_lt_of_safe (not_markup_of_mem_replaceSpecials (toStr B b.title)))
  have e2 := settled_of_no_lt p _
    (no_lt_of_safe (not_markup_of_mem_replaceSpecials (toStr B (jsOr b.author (.str [])))))
  have e3 := settled_of_no_lt p _
    (no_lt_of_safe (not_markup_of_mem_toFixed1 B (toNumber B b.avg_rating)))
  have e4 := settled_of_no_lt p _ hk
  have e5 := settled_of_no_lt p _ hid
  have eg : settled (60 :: p) (genreSlot B (genreText b.genres)) = true ∧
      occurrences (60 :: p) (genreSlot B (genreText b.genres)) = 0 := by
    rw [genreSlot_pieces]
    split
    · have e6 := settled_of_no_lt p _
        (no_lt_of_safe (not_markup_of_mem_replaceSpecials (toStr B (genreText b.genres))))
      have := occurrences_flatten (60 :: p) hp
        [genreOpen, escapeHtml B (genreText b.genres), genreClose] (by
          intro x hx
          simp only [List.mem_cons, List.mem_singleton, List.not_mem_nil, or_false] at hx
          rcases hx with rfl | rfl | rfl
          · exact hs _ (by simp)
          · exact e6.1
          · exact hs _ (by simp))
      refine ⟨this.1, ?_⟩
      rw [this.2]
      have h6 : occurrences (60 :: p) (escapeHtml B (genreText b.genres)) = 0 := e6.2
      simp [hg.1, hg.2, h6]
    · exact ⟨rfl, rfl⟩
  have := occurrences_flatten (60 :: p) hp
    [seg0, escapeHtml B b.title, seg1, escapeHtml B (jsOr b.author (.str [])), seg2,
      genreSlot B (genreText b.genres), seg3, toFixed1 B (toNumber B b.avg_rating), seg4,
      toStr B b.ratings_count, seg5, toStr B b.id, seg6] (by
      intro x hx
      simp only [List.mem_cons, List.mem_singleton, List.not_mem_nil, or_false] at hx
      rcases hx with rfl | rfl | rfl | rfl | rfl | rfl | rfl | rfl | rfl | rfl | rfl | rfl | rfl
      · exact hs _ (by simp)
      · exact e1.1
      · exact hs _ (by simp)
      · exact e2.1
      · exact hs _ (by simp)
      · exact eg.1
      · exact hs _ (by simp)
      · exact e3.1
      · exact hs _ (by simp)
      · exact e4.1
      · exact hs _ (by simp)
      · exact e5.1
      · exact hs _ (by simp))
  rw [renderCard_pieces]
  refine ⟨this.1, ?_⟩
  rw [this.2]
  have h1 : occurrences (60 :: p) (escapeHtml B b.title) = 0 := e1.2
  have h2 : occurrences (60 :: p) (escapeHtml B (jsOr b.author (.str []))) = 0 := e2.2
  simp only [List.map_cons, List.map_nil, List.sum_cons, List.sum_nil, h1, h2, e3.2, e4.2,
    e5.2, eg.2]
  omega

/-- Occurrences of a tag in the cards of a list of books. -/
theorem occurrences_cards (B : Builtins) (bs : List Book) (p : JSString) (n : Nat)
    (hs : ∀ x ∈ [seg0, seg1, seg2, seg3, seg4, seg5, seg6, genreOpen, genreClose],
      settled (60 :: p) x = true)
    (hg : occurrences (60 :: p) genreOpen = 0 ∧ occurrences (60 :: p) genreClose = 0)
    (hn : ([seg0, seg1, seg2, seg3, seg4, seg5, seg6].map (occurrences (60 :: p))).sum = n)
    (hb : ∀ b ∈ bs, 60 ∉ toStr B b.id ∧ 60 ∉ toStr B b.ratings_count) :
    occurrences (60 :: p) (bs.map (renderCard B)).flatten = n * bs.length := by
  have hp : (60 :: p) ≠ [] := by simp
  have := occurrences_flatten (60 :: p) hp (bs.map (renderCard B)) (by
    intro x hx
    obtain ⟨b, hbm, rfl⟩ := List.mem_map.1 hx
    exact (occurrences_renderCard B b p hs hg (hb b hbm).1 (hb b hbm).2).1)
  rw [this.2, List.map_map]
  clear this
  induction bs with
  | nil => simp
  | cons b bs ih =>
    have h1 := (occurrences_renderCard B b p hs hg
      (hb b (List.mem_cons_self _ _)).1 (hb b (List.mem_cons_self _ _)).2).2
    simp only [List.map_cons, List.sum_cons, Function.comp_apply, List.length_cons]
    rw [h1, hn, ih fun b' hb' => hb b' (List.mem_cons_of_mem _ hb')]
    ring

/-- Occurrences of a tag whose first character is `<` in the cards of a list of
books. -/
theorem occurrences_grid (B : Builtins) (bs : List Book) (pat : JSString) (n : Nat)
    (hh : pat.head? = some 60)
    (hs : ∀ x ∈ [seg0, seg1, seg2, seg3, seg4, seg5, seg6, genreOpen, genreClose],
      settled pat x = true)
    (hg : occurrences pat genreOpen = 0 ∧ occurrences pat genreClose = 0)
    (hn : ([seg0, seg1, seg2, seg3, seg4, seg5, seg6].map (occurrences pat)).sum = n)
    (hb : ∀ b ∈ bs, 60 ∉ toStr B b.id ∧ 60 ∉ toStr B b.ratings_count) :
    occurrences pat (bs.map (renderCard B)).flatten = n * bs.length := by
  cases pat with
  | nil => simp at hh
  | cons c p =>
    have hc : c = 60 := by simpa using hh
    subst hc
    exact occurrences_cards B bs p n hs hg hn hb

set_option maxRecDepth 100000 in
theorem cardOpen_template :
    cardOpen.head? = some 60 ∧
    (∀ x ∈ [seg0, seg1, seg2, seg3, seg4, seg5, seg6, genreOpen, genreClose],
      settled cardOpen x = true) ∧
    (occurrences cardOpen genreOpen = 0 ∧ occurrences cardOpen genreClose = 0) ∧
    ([seg0, seg1, seg2, seg3, seg4, seg5, seg6].map (occurrences cardOpen)).sum = 1 := by
  decide

set_option maxRecDepth 100000 in
theorem noticeOpen_template :
    noticeOpen.head? = some 60 ∧
    (∀ x ∈ [seg0, seg1, seg2, seg3, seg4, seg5, seg6, genreOpen, genreClose],
      settled noticeOpen x = true) ∧
    (occurrences noticeOpen genreOpen = 0 ∧ occurrences noticeOpen genreClose = 0) ∧
    ([seg0, seg1, seg2, seg3, seg4, seg5, seg6].map (occurrences noticeOpen)).sum = 0 := by
  decide

set_option maxRecDepth 100000 in
theorem noticeBook_grid :
    (renderResults hostStub (lit "Genre Picks") (some [noticeBook]) resultsPage).resultsGrid.map
        (occurrences noticeOpen) = some 1 := by
  decide

set_option maxRecDepth 100000 in
theorem cardTagBook_grid :
    (renderResults hostStub (lit "Genre Picks") (some [cardTagBook]) resultsPage).resultsGrid.map
        (occurrences cardOpen) = some 2 := by
  decide

/-! ## The card of the sample item -/

theorem numToString_natural (B : Builtins) (q : ℚ) (h1 : q.den = 1)
    (h2 : q.num.natAbs ≤ 2 ^ 53) (h3 : ¬ q.num < 0) :
    numToString B (.fin q) = decimal q.num.natAbs := by
  simp only [numToString, if_pos (And.intro h1 h2), if_neg h3, List.nil_append]

theorem sample_title (B : Builtins) :
    escapeHtml B sampleItem.title = lit "&lt;b&gt;X&lt;/b&gt;" := by
  show replaceSpecials (lit "<b>X</b>") = _
  decide

theorem sample_author (B : Builtins) :
    escapeHtml B (jsOr sampleItem.author (.str [])) = lit "A" := by
  show replaceSpecials (lit "A") = _
  decide

theorem sample_genres (B : Builtins) :
    genreSlot B (genreText sampleItem.genres)
      = lit "<p class=\"card-text\"><small class=\"text-muted\">g1,g2</small></p>" := by
  show genreSlot B (genreText (.str (lit "g1,g2"))) = _
  rw [genreSlot_str]
  show (if 50 < (lit "g1,g2").length then
      genreOpen ++ (replaceSpecials ((lit "g1,g2").take 50) ++ lit "...") ++ genreClose
    else if 1 ≤ (lit "g1,g2").length then genreOpen ++ replaceSpecials (lit "g1,g2") ++ genreClose
    else []) = _
  decide

theorem sample_avg :
    jsOr (jsOr sampleItem.avg_rating sampleItem.score) (.num (.fin 0))
      = .num (.fin double4_2) := by
  decide

theorem sample_rating (B : Builtins) :
    toFixed1 B (toNumber B (jsOr (jsOr sampleItem.avg_rating sampleItem.score) (.num (.fin 0))))
      = lit "4.2" := by
  rw [sample_avg]
  have h : ¬ 10 ^ 21 * double4_2.den ≤ double4_2.num.natAbs := by decide
  simp only [toNumber, toFixed1, if_neg h]
  decide

theorem sample_count (B : Builtins) :
    toStr B (jsOr sampleItem.ratings_count (.num (.fin 0))) = lit "10" := by
  have h : jsOr sampleItem.ratings_count (.num (.fin 0)) = .num (.fin 10) := by
    decide
  rw [h]
  simp only [toStr]
  rw [numToString_natural B 10 (by decide) (by decide) (by decide)]
  decide

theorem sample_id (B : Builtins) : toStr B sampleItem.id = lit "1" := by
  simp only [sampleItem, toStr]
  rw [numToString_natural B 1 (by decide) (by decide) (by decide)]
  decide

set_option maxRecDepth 100000 in
theorem sample_concat :
    seg0 ++ lit "&lt;b&gt;X&lt;/b&gt;" ++ seg1 ++ lit "A" ++ seg2
      ++ lit "<p class=\"card-text\"><small class=\"text-muted\">g1,g2</small></p>"
      ++ seg3 ++ lit "4.2" ++ seg4 ++ lit "10" ++ seg5 ++ lit "1" ++ seg6 = sampleCard := by
  decide

theorem sample_render (B : Builtins) :
    (normalizeBooks [sampleItem]).map (renderCard B) = [sampleCard] := by
  simp only [normalizeBooks, List.map_cons, List.map_nil, renderCard, sample_title,
    sample_author, sample_genres, sample_rating, sample_count, sample_id, sample_concat]

set_option maxRecDepth 100000 in
theorem sample_has_title : lit "<h5 class=\"card-title\">&lt;b&gt;X&lt;/b&gt;</h5>" <:+: sampleCard :=
  ⟨lit "\n            <div class=\"col-md-4 mb-4\">\n                <div class=\"card h-100 soft-card\">\n                    <div class=\"card-body\">\n                        ",
   lit "\n                        <p class=\"card-text text-muted\">by A</p>\n                        <p class=\"card-text\"><small class=\"text-muted\">g1,g2</small></p>\n                        <div class=\"mb-2\">\n                            <span class=\"badge bg-warning text-dark\"><i class=\"fa-solid fa-star me-1\"></i> 4.2</span>\n                            <span class=\"badge bg-secondary\">10 ratings</span>\n                        </div>\n                        <a href=\"/book/1\" class=\"btn btn-sm btn-primary\"><i class=\"fa-solid fa-circle-info me-1\"></i> View Details</a>\n                    </div>\n                </div>\n            </div>", by decide⟩

set_option maxRecDepth 100000 in
theorem sample_has_rating : lit "</i> 4.2</span>" <:+: sampleCard :=
  ⟨lit "\n            <div class=\"col-md-4 mb-4\">\n                <div class=\"card h-100 soft-card\">\n                    <div class=\"card-body\">\n                        <h5 class=\"card-title\">&lt;b&gt;X&lt;/b&gt;</h5>\n                        <p class=\"card-text text-muted\">by A</p>\n                        <p class=\"card-text\"><small class=\"text-muted\">g1,g2</small></p>\n                        <div class=\"mb-2\">\n                            <span class=\"badge bg-warning text-dark\"><i class=\"fa-solid fa-star me-1\">",
   lit "\n                            <span class=\"badge bg-secondary\">10 ratings</span>\n                        </div>\n                        <a href=\"/book/1\" class=\"btn btn-sm btn-primary\"><i class=\"fa-solid fa-circle-info me-1\"></i> View Details</a>\n                    </div>\n                </div>\n            </div>", by decide⟩

set_option maxRecDepth 100000 in
theorem sample_has_count : lit "<span class=\"badge bg-secondary\">10 ratings</span>" <:+: sampleCard :=
  ⟨lit "\n            <div class=\"col-md-4 mb-4\">\n                <div class=\"card h-100 soft-card\">\n                    <div class=\"card-body\">\n                        <h5 class=\"card-title\">&lt;b&gt;X&lt;/b&gt;</h5>\n                        <p class=\"card-text text-muted\">by A</p>\n                        <p class=\"card-text\"><small class=\"text-muted\">g1,g2</small></p>\n                        <div class=\"mb-2\">\n                            <span class=\"badge bg-warning text-dark\"><i class=\"fa-solid fa-star me-1\"></i> 4.2</span>\n                            ",
   lit "\n                        </div>\n                        <a href=\"/book/1\" class=\"btn btn-sm btn-primary\"><i class=\"fa-solid fa-circle-info me-1\"></i> View Details</a>\n                    </div>\n                </div>\n            </div>", by decide⟩

set_option maxRecDepth 100000 in
theorem sample_has_link : lit "<a href=\"/book/1\"" <:+: sampleCard :=
  ⟨lit "\n            <div class=\"col-md-4 mb-4\">\n                <div class=\"card h-100 soft-card\">\n                    <div class=\"card-body\">\n                        <h5 class=\"card-title\">&lt;b&gt;X&lt;/b&gt;</h5>\n                        <p class=\"card-text text-muted\">by A</p>\n                        <p class=\"card-text\"><small class=\"text-muted\">g1,g2</small></p>\n                        <div class=\"mb-2\">\n                            <span class=\"badge bg-warning text-dark\"><i class=\"fa-solid fa-star me-1\"></i> 4.2</span>\n                            <span class=\"badge bg-secondary\">10 ratings</span>\n                        </div>\n                        ",
   lit " class=\"btn btn-sm btn-primary\"><i class=\"fa-solid fa-circle-info me-1\"></i> View Details</a>\n                    </div>\n                </div>\n            </div>", by decide⟩

/-! ## Claims -/

/-- C4: for every string `s`, `escapeHtml(s)` has no `<`, `>` or `"`; every
`&` in it begins one of `&amp;`, `&lt;`, `&gt;`, `&quot;`; it equals `s` with
each of the four characters replaced by its entity and every other character
unchanged; and the card of every book contains title, author (or the empty
string for a falsy author) and the truncated genres only in escaped form, at
fixed places of the template. -/
theorem escapeHtml_escapes (B : Builtins) (s : JSString) (b : Book) :
    (∀ c ∈ escapeHtml B (.str s), c ≠ 60 ∧ c ≠ 62 ∧ c ≠ 34) ∧
    (∀ pre post, escapeHtml B (.str s) = pre ++ 38 :: post →
      lit "amp;" <+: post ∨ lit "lt;" <+: post ∨ lit "gt;" <+: post ∨ lit "quot;" <+: post) ∧
    escapeHtml B (.str s) = s.flatMap entityOf ∧
    renderCard B b =
      seg0 ++ escapeHtml B b.title
        ++ seg1 ++ escapeHtml B (if truthy b.author then b.author else .str [])
        ++ seg2
        ++ (if truthy (genreText b.genres)
            then genreOpen ++ escapeHtml B (genreText b.genres) ++ genreClose else [])
        ++ cardAfter B b := by
  refine ⟨?_, ?_, ?_, ?_⟩
  · intro c hc
    have := not_markup_of_mem_replaceSpecials s c hc
    unfold isMarkup at this
    omega
  · intro pre post h
    exact amp_begins_entity s pre post h
  · exact replaceSpecials_eq_flatMap s
  · simp [renderCard, cardAfter, genreSlot, jsOr, genreOpen, genreClose, List.append_assoc]

/-- C8: in the card of a book whose genres are the string `s`, the genre slot
holds, for more than 50 characters, the escaped first 50 characters followed by
`...`, for 1 to 50 characters the escaped string, and nothing for the empty
string; for missing (`undefined` or `null`) genres the slot is empty too.  The
escaped form of a string is the string with each of `&`, `<`, `>` and `"`
replaced by its entity. -/
theorem genre_truncation (B : Builtins) (b : Book) (s : JSString) :
    renderCard B { b with genres := .str s }
      = cardBefore B b ++ genreParagraph B s ++ cardAfter B b ∧
    renderCard B { b with genres := .undefined } = cardBefore B b ++ cardAfter B b ∧
    renderCard B { b with genres := .null } = cardBefore B b ++ cardAfter B b ∧
    (∀ t : JSString, escapeHtml B (.str t) = t.flatMap entityOf) := by
  refine ⟨?_, ?_, ?_, fun t => replaceSpecials_eq_flatMap t⟩
  · rw [renderCard_eq, genreSlot_str]
    rfl
  · rw [renderCard_eq]
    simp [genreText, genreSlot, truthy, cardBefore, cardAfter]
  · rw [renderCard_eq]
    simp [genreText, genreSlot, truthy, cardBefore, cardAfter]

/-- C9, refuted as stated: a book without `avg_rating` (an item that carries
only `score`, rendered as it came from the API) gets the rating text `NaN`,
which has no decimal point and no digit. -/
theorem rating_one_decimal_refuted :
    ¬ (∀ (B : Builtins) (b : Book), ∃ pre d,
        toFixed1 B (toNumber B b.avg_rating) = pre ++ [46, d] ∧ 48 ≤ d ∧ d ≤ 57) := by
  intro h
  obtain ⟨pre, d, h1, h2, h3⟩ := h hostStub sampleItem.raw
  have h4 : toFixed1 hostStub (toNumber hostStub sampleItem.raw.avg_rating) = [78, 97, 78] := by
    decide
  rw [h4] at h1
  have h5 := congrArg List.getLast? h1
  simp at h5
  omega

/-- C9, amended: in every card the rating slot holds `Number(avg_rating)` put
through `toFixed(1)` and is followed by the count badge with the string form of
`ratings_count` and ` ratings`, and the link goes to `/book/` and the id.  When
`Number(avg_rating)` is a finite number of magnitude below 10^21, the rating
text is a sign, the digits of an integer, a point and exactly one digit, and it
is the tenth nearest to the number (the one further from zero on a tie); when
it is `NaN` the rating text is `NaN`.  The
response of the example gives one card with the escaped title, `4.2`,
`10 ratings` and a link to `/book/1`. -/
theorem rating_and_count_display (B : Builtins) (b : Book) (title : JSString) (s : Page) :
    renderCard B b =
      cardBefore B b ++ genreSlot B (genreText b.genres) ++ seg3
        ++ toFixed1 B (toNumber B b.avg_rating) ++ seg4
        ++ (toStr B b.ratings_count ++ lit " ratings")
        ++ lit "</span>\n                        </div>\n                        <a href=\""
        ++ (lit "/book/" ++ toStr B b.id) ++ seg6 ∧
    (∀ q : ℚ, toNumber B b.avg_rating = .fin q → |q| < 10 ^ 21 →
      toFixed1 B (toNumber B b.avg_rating) =
        (if q < 0 then lit "-" else []) ++ decimal (nearestTenth q / 10)
          ++ [46, 48 + nearestTenth q % 10] ∧
      digitsValue (decimal (nearestTenth q / 10)) = nearestTenth q / 10 ∧
      nearestTenth q % 10 < 10 ∧
      (nearestTenth q : ℚ) / 10 - |q| ≤ 1 / 20 ∧ |q| - (nearestTenth q : ℚ) / 10 < 1 / 20) ∧
    (toNumber B b.avg_rating = .nan → toFixed1 B (toNumber B b.avg_rating) = lit "NaN") ∧
    (renderResults B title (some (normalizeBooks [sampleItem])) s).resultsGrid
      = s.resultsGrid.map (fun _ => sampleCard) ∧
    lit "<h5 class=\"card-title\">&lt;b&gt;X&lt;/b&gt;</h5>" <:+: sampleCard ∧
    lit "</i> 4.2</span>" <:+: sampleCard ∧
    lit "<span class=\"badge bg-secondary\">10 ratings</span>" <:+: sampleCard ∧
    lit "<a href=\"/book/1\"" <:+: sampleCard := by
  refine ⟨?_, ?_, ?_, ?_, ?_, ?_, ?_, ?_⟩
  · rw [renderCard_eq, cardAfter, seg5_eq]
    simp [List.append_assoc]
  · intro q hq hlt
    rw [hq]
    exact ⟨toFixed1_small B q hlt, decimal_value _, Nat.mod_lt _ (by decide),
      nearestTenth_spec q⟩
  · intro hnan
    rw [hnan]
    rfl
  · have hcards := sample_render B
    have hne : normalizeBooks [sampleItem] ≠ [] := by simp [normalizeBooks]
    cases hg : s.resultsGrid with
    | none => simp [renderResults, hg]
    | some g =>
      cases hb : normalizeBooks [sampleItem] with
      | nil => exact absurd hb hne
      | cons b bs =>
        rw [hb] at hcards
        simp only [renderResults, hg, hcards, List.flatten_cons, List.flatten_nil,
          List.append_nil, Option.map_some']
  · exact sample_has_title
  · exact sample_has_rating
  · exact sample_has_count
  · exact sample_has_link

/-- C10: two books whose id and ratings count are numbers and whose genres
are both truthy or both falsy give cards with the same number of `<`, of `>`
and of `"`, whatever their title, author, genres and rating.  The condition on
the id is needed: two books that differ only in a string id can differ in the
number of `"`. -/
theorem card_markup_independent (B : Builtins) (b1 b2 : Book) (i1 k1 i2 k2 : JSNum)
    (hid1 : b1.id = .num i1) (hk1 : b1.ratings_count = .num k1)
    (hid2 : b2.id = .num i2) (hk2 : b2.ratings_count = .num k2)
    (hg : truthy b1.genres = truthy b2.genres) :
    (renderCard B b1).count 60 = (renderCard B b2).count 60 ∧
    (renderCard B b1).count 62 = (renderCard B b2).count 62 ∧
    (renderCard B b1).count 34 = (renderCard B b2).count 34 ∧
    (renderCard B { b1 with id := .str (lit "\"") }).count 34
      ≠ (renderCard B { b1 with id := .str [] }).count 34 := by
  refine ⟨?_, ?_, ?_, ?_⟩
  · rw [count_renderCard B b1 i1 k1 hid1 hk1 60 (Or.inl rfl),
      count_renderCard B b2 i2 k2 hid2 hk2 60 (Or.inl rfl), hg]
  · rw [count_renderCard B b1 i1 k1 hid1 hk1 62 (Or.inr (Or.inl rfl)),
      count_renderCard B b2 i2 k2 hid2 hk2 62 (Or.inr (Or.inl rfl)), hg]
  · rw [count_renderCard B b1 i1 k1 hid1 hk1 34 (Or.inr (Or.inr rfl)),
      count_renderCard B b2 i2 k2 hid2 hk2 34 (Or.inr (Or.inr rfl)), hg]
  · rw [count_renderCard_any B _ 34 (Or.inr (Or.inr rfl)),
      count_renderCard_any B _ 34 (Or.inr (Or.inr rfl))]
    have h1 : (toStr B (.str (lit "\""))).count 34 = 1 := by
      show (lit "\"").count 34 = 1
      decide
    have h2 : (toStr B (.str [])).count 34 = 0 := rfl
    simp only [h1, h2]
    omega

/-- Witness for C10: the book of the sample response against a book with
markup characters in title, author and genres. -/
theorem card_markup_independent_witness :
    (renderCard hostStub sampleItem.raw).count 60
      = (renderCard hostStub scriptBook).count 60 ∧
    (renderCard hostStub sampleItem.raw).count 62
      = (renderCard hostStub scriptBook).count 62 ∧
    (renderCard hostStub sampleItem.raw).count 34
      = (renderCard hostStub scriptBook).count 34 :=
  have h := card_markup_independent hostStub sampleItem.raw scriptBook (.fin 1) (.fin 10)
    (.fin 2) (.fin 0) rfl rfl rfl rfl (by decide)
  ⟨h.1, h.2.1, h.2.2.1⟩

/-- C6, refuted as stated: for a list of one book whose ratings count is the
string of the notice markup the grid holds a notice, and for a list of one
book whose ratings count is the string of the opening tag of a card the grid
holds that tag twice. -/
theorem grid_cards_refuted :
    (renderResults hostStub (lit "Genre Picks") (some [noticeBook]) resultsPage).resultsGrid.map
        (occurrences noticeOpen) = some 1 ∧
    (renderResults hostStub (lit "Genre Picks") (some [cardTagBook]) resultsPage).resultsGrid.map
        (occurrences cardOpen) = some 2 :=
  ⟨noticeBook_grid, cardTagBook_grid⟩

/-- C6, amended: `renderResults` sets the text of the results heading to the
title.  For a list that is `null`, `undefined` or empty it sets the grid to the
notice markup, which holds one `No results.` notice and no card.  For any other
list it sets the grid to the cards of the books, one after the other in list
order, each the template filled with the fields of its book; and when the
string forms of the id and of the ratings count of every book are without `<`
(as they are for numbers), the grid holds the opening tag of a card exactly
once per book and the opening tag of the notice nowhere. -/
theorem renderResults_grid (B : Builtins) (title : JSString) (books : Option (List Book))
    (s : Page) :
    (renderResults B title books s).resultsTitle = s.resultsTitle.map (fun _ => title) ∧
    (books = none ∨ books = some [] →
      (renderResults B title books s).resultsGrid = s.resultsGrid.map (fun _ => noResults)) ∧
    occurrences noticeOpen noResults = 1 ∧
    occurrences (lit "No results.") noResults = 1 ∧
    occurrences cardOpen noResults = 0 ∧
    (∀ bs, books = some bs → bs ≠ [] →
      (renderResults B title books s).resultsGrid
        = s.resultsGrid.map (fun _ => (bs.map fun b =>
            seg0 ++ escapeHtml B b.title
              ++ seg1 ++ escapeHtml B (if truthy b.author then b.author else .str [])
              ++ seg2
              ++ (if truthy (genreText b.genres)
                  then genreOpen ++ escapeHtml B (genreText b.genres) ++ genreClose else [])
              ++ seg3 ++ toFixed1 B (toNumber B b.avg_rating)
              ++ seg4 ++ toStr B b.ratings_count
              ++ seg5 ++ toStr B b.id
              ++ seg6).flatten) ∧
      ((∀ b ∈ bs, 60 ∉ toStr B b.id ∧ 60 ∉ toStr B b.ratings_count) →
        ∀ g, (renderResults B title books s).resultsGrid = some g →
          occurrences cardOpen g = bs.length ∧ occurrences noticeOpen g = 0)) ∧
    (∀ n : JSNum, 60 ∉ toStr B (.num n)) := by
  refine ⟨?_, ?_, by decide, by decide, by decide, ?_, ?_⟩
  · unfold renderResults
    cases s.resultsGrid <;> cases books with
    | none => simp
    | some bs => cases bs <;> simp
  · intro h
    unfold renderResults
    rcases h with h | h <;> subst h <;> cases s.resultsGrid <;> simp
  · intro bs hb hne
    subst hb
    have hgrid : (renderResults B title (some bs) s).resultsGrid
        = s.resultsGrid.map (fun _ => (bs.map (renderCard B)).flatten) := by
      unfold renderResults
      cases bs with
      | nil => exact absurd rfl hne
      | cons b bs => cases s.resultsGrid <;> simp
    have hcard : (fun b : Book =>
        seg0 ++ escapeHtml B b.title
          ++ seg1 ++ escapeHtml B (if truthy b.author then b.author else .str [])
          ++ seg2
          ++ (if truthy (genreText b.genres)
              then genreOpen ++ escapeHtml B (genreText b.genres) ++ genreClose else [])
          ++ seg3 ++ toFixed1 B (toNumber B b.avg_rating)
          ++ seg4 ++ toStr B b.ratings_count
          ++ seg5 ++ toStr B b.id
          ++ seg6) = renderCard B := by
      funext b
      simp [renderCard, genreSlot, jsOr, genreOpen, genreClose, List.append_assoc]
    refine ⟨by rw [hcard]; exact hgrid, ?_⟩
    intro hsafe g hg
    rw [hgrid] at hg
    have hgv : g = (bs.map (renderCard B)).flatten := by
      cases hs : s.resultsGrid with
      | none => simp [hs] at hg
      | some g0 =>
        simp only [hs, Option.map_some', Option.some.injEq] at hg
        exact hg.symm
    subst hgv
    have hc := cardOpen_template
    have hn := noticeOpen_template
    refine ⟨?_, ?_⟩
    · rw [occurrences_grid B bs cardOpen 1 hc.1 hc.2.1 hc.2.2.1 hc.2.2.2 hsafe, Nat.one_mul]
    · rw [occurrences_grid B bs noticeOpen 0 hn.1 hn.2.1 hn.2.2.1 hn.2.2.2 hsafe, Nat.zero_mul]
  · intro n
    exact no_lt_of_safe (not_markup_of_mem_numToString B n)

/-- C5, refuted as stated: an item with `avg_rating` present and equal to 0 and
a `score` of 4.2 is normalised to a book whose `avg_rating` is the score. -/
theorem normalize_present_refuted :
    ({ sampleItem with avg_rating := .num (.fin 0) } : Item).avg_rating ≠ .undefined ∧
    (normalizeBooks [{ sampleItem with avg_rating := .num (.fin 0) }]).map (·.avg_rating)
      = [.num (.fin double4_2)] ∧
    (normalizeBooks [{ sampleItem with avg_rating := .num (.fin 0) }]).map (·.avg_rating)
      ≠ [.num (.fin 0)] := by
  decide

/-- C5, amended: `normalizeBooks` keeps length and order; the book at each
index copies id, title, author and genres of the item there, has the item's
`avg_rating` when that is truthy, else its `score` when that is truthy, else 0,
and has the item's `ratings_count` when that is truthy, else 0. -/
theorem normalizeBooks_spec (items : List Item) (i : Nat) :
    (normalizeBooks items).length = items.length ∧
    (normalizeBooks items)[i]? = (items[i]?).map (fun it =>
      { id := it.id
        title := it.title
        author := it.author
        genres := it.genres
        avg_rating :=
          if truthy it.avg_rating then it.avg_rating
          else if truthy it.score then it.score
          else .num (.fin 0)
        ratings_count :=
          if truthy it.ratings_count then it.ratings_count else .num (.fin 0) }) := by
  refine ⟨by simp [normalizeBooks], ?_⟩
  simp only [normalizeBooks, List.getElem?_map]
  cases items[i]? with
  | none => rfl
  | some it =>
    simp only [Option.map_some', jsOr]
    congr 2
    by_cases h : truthy it.avg_rating = true <;> simp [h]

/-- C3, refuted as stated: with the textarea holding a single unpaired
surrogate the trimmed value is not empty and the handler hides the error
element, but `encodeURIComponent` throws and no request is issued. -/
theorem getRecs_one_request_refuted :
    interestsQuery { resultsPage with textarea := some [55296], errEl := some [] } ≠ [] ∧
    (getRecsClick hostStub (some [])
      { resultsPage with textarea := some [55296], errEl := some [] }).fetched = [] ∧
    (getRecsClick hostStub (some [])
      { resultsPage with textarea := some [55296], errEl := some [] }).errEl
      = some ["visually-hidden"] := by
  decide

/-- C3, amended: when the trimmed textarea value is empty (no textarea, or a
value of white space only) the handler issues no request, does not call
`renderResults` and leaves grid and heading alone, and the error element is
without `visually-hidden`; when it is not empty the error element carries
`visually-hidden`, and the handler issues exactly one GET to
`/api/recommendations?q=` followed by the URL-encoded value, unless the value
has an unpaired surrogate, where no request is issued; the URL-encoded value
exists exactly when the value has no unpaired surrogate. -/
theorem getRecs_validation (B : Builtins) (resp : Option (List Item)) (s : Page) :
    (s.textarea = none → interestsQuery s = []) ∧
    (∀ v, s.textarea = some v → (interestsQuery s = [] ↔ ∀ c ∈ v, isWhiteSpace c = true)) ∧
    (interestsQuery s = [] →
      (getRecsClick B resp s).fetched = s.fetched ∧
      (getRecsClick B resp s).rendered = s.rendered ∧
      (getRecsClick B resp s).resultsGrid = s.resultsGrid ∧
      (getRecsClick B resp s).resultsTitle = s.resultsTitle ∧
      (getRecsClick B resp s).errEl = s.errEl.map (classRemove "visually-hidden") ∧
      ∀ cl, (getRecsClick B resp s).errEl = some cl → "visually-hidden" ∉ cl) ∧
    (interestsQuery s ≠ [] →
      (getRecsClick B resp s).errEl = s.errEl.map (classAdd "visually-hidden") ∧
      (∀ cl, (getRecsClick B resp s).errEl = some cl → "visually-hidden" ∈ cl) ∧
      (∀ enc, encodeURIComponent (interestsQuery s) = some enc →
        (getRecsClick B resp s).fetched
          = s.fetched ++ [lit "/api/recommendations?q=" ++ enc]) ∧
      (encodeURIComponent (interestsQuery s) = none →
        (getRecsClick B resp s).fetched = s.fetched) ∧
      (encodeURIComponent (interestsQuery s)).isSome = isWellFormed (interestsQuery s)) := by
  refine ⟨?_, ?_, ?_, ?_⟩
  · intro h
    simp [interestsQuery, h]
  · intro v h
    simp only [interestsQuery, h]
    exact trim_eq_nil_iff v
  · intro hq
    have hres : getRecsClick B resp s =
        { s with errEl := s.errEl.map (classRemove "visually-hidden")
                 textareaFocused := s.textarea.isSome || s.textareaFocused } := by
      simp [getRecsClick, hq]
    rw [hres]
    refine ⟨rfl, rfl, rfl, rfl, rfl, ?_⟩
    intro cl hcl
    simp only [Option.map_eq_some'] at hcl
    obtain ⟨l, _, rfl⟩ := hcl
    exact classRemove_not_mem _ _
  · intro hq
    have hemp : (interestsQuery s).isEmpty = false := by
      cases h : interestsQuery s with
      | nil => exact absurd h hq
      | cons c t => rfl
    have herr : (getRecsClick B resp s).errEl = s.errEl.map (classAdd "visually-hidden") := by
      simp only [getRecsClick, hemp]
      cases encodeURIComponent (interestsQuery s) with
      | none => simp
      | some enc =>
        cases resp with
        | none => simp
        | some data => simp [renderResults_errEl]
    refine ⟨herr, ?_, ?_, ?_, ?_⟩
    · intro cl hcl
      rw [herr] at hcl
      simp only [Option.map_eq_some'] at hcl
      obtain ⟨l, _, rfl⟩ := hcl
      exact classAdd_mem _ _
    · intro enc henc
      simp only [getRecsClick, hemp, henc]
      cases resp with
      | none => simp
      | some data => simp [renderResults_fetched]
    · intro henc
      simp [getRecsClick, hemp, henc]
    · exact encodeURIComponent_isSome _

/-- C7, refuted as stated: a single checked checkbox whose value is ` a `
gives the URL `/api/search?genres=a`, not the encoding `%20a%20` of the value;
a single checked checkbox with an empty value gives `/api/search` although the
selection is not empty; and a value that is an unpaired surrogate gives no
request at all. -/
theorem genre_selection_refuted :
    encodeURIComponent (lit " a ") = some (lit "%20a%20") ∧
    (genreSubmitClick hostStub none { resultsPage with genreChecked := [lit " a "] }).fetched
      = [lit "/api/search?genres=a"] ∧
    (genreSubmitClick hostStub none { resultsPage with genreChecked := [[]] }).fetched
      = [lit "/api/search"] ∧
    (genreSubmitClick hostStub none { resultsPage with genreChecked := [[55296]] }).fetched
      = [] := by
  decide

/-- C7, amended: the values of the checked checkboxes are trimmed and the
empty ones dropped; with no value left (in particular with nothing checked) the
handler issues exactly one GET to `/api/search`; otherwise it issues exactly
one GET to `/api/search?genres=` followed by the URL-encoding of the remaining
values joined by commas in document order, unless the joined string has an
unpaired surrogate, where no request is issued.  When every checked value is
already trimmed and not empty, the remaining values are the checked values. -/
theorem genre_request_url (B : Builtins) (resp : Option (List Item)) (s : Page) :
    (s.genreChecked = [] → selectedGenres s = []) ∧
    ((∀ v ∈ s.genreChecked, trim v = v ∧ v ≠ []) → selectedGenres s = s.genreChecked) ∧
    (selectedGenres s = [] →
      (genreSubmitClick B resp s).fetched = s.fetched ++ [lit "/api/search"]) ∧
    (selectedGenres s ≠ [] →
      (∀ enc, encodeURIComponent (List.intercalate (lit ",") (selectedGenres s)) = some enc →
        (genreSubmitClick B resp s).fetched
          = s.fetched ++ [lit "/api/search?genres=" ++ enc]) ∧
      (encodeURIComponent (List.intercalate (lit ",") (selectedGenres s)) = none →
        (genreSubmitClick B resp s).fetched = s.fetched) ∧
      (encodeURIComponent (List.intercalate (lit ",") (selectedGenres s))).isSome
        = isWellFormed (List.intercalate (lit ",") (selectedGenres s))) := by
  refine ⟨?_, ?_, ?_, ?_⟩
  · intro h
    simp [selectedGenres, h]
  · intro h
    unfold selectedGenres
    have h1 : s.genreChecked.map trim = s.genreChecked := by
      conv_rhs => rw [← List.map_id s.genreChecked]
      exact List.map_congr_left fun v hv => (h v hv).1
    rw [h1, List.filter_eq_self]
    intro v hv
    have := (h v hv).2
    cases v with
    | nil => exact absurd rfl this
    | cons c t => rfl
  · intro hg
    simp only [genreSubmitClick, hg]
    cases resp with
    | none => simp [lit]
    | some data => simp [renderResults_fetched, lit]
  · intro hg
    have hlen : (selectedGenres s).length ≠ 0 := by
      intro h
      exact hg (List.length_eq_zero.1 h)
    refine ⟨?_, ?_, encodeURIComponent_isSome _⟩
    · intro enc henc
      simp only [genreSubmitClick, hlen, henc]
      cases resp with
      | none => simp [lit, hg]
      | some data => simp [renderResults_fetched, lit, hg]
    · intro henc
      simp [genreSubmitClick, hlen, henc, hg]

/-- C1, refuted as stated: with two tab controls that share the identifier
`similar`, a click on the first leaves two tabs active; and a click on a tab
whose panel is not in the document leaves no panel active and none visible. -/
theorem tab_invariant_refuted :
    activeTabCount (clickTab 0 (tabsPage [some "similar", some "similar"])) = 2 ∧
    activePanelCount
      (clickTab 1 { tabsPage [some "similar", some "genre"] with panelGenre := none }) = 0 ∧
    visiblePanelCount
      (clickTab 1 { tabsPage [some "similar", some "genre"] with panelGenre := none }) = 0 := by
  decide

/-- C1, amended: let the tab control at index `i` have the identifier `k`, let
no other tab control have it, and let `k` be the key of a panel that exists.
Then after any sequence of tab clicks followed by a click on that tab, exactly
one tab has the class `active`, it is the clicked one, every tab has
`aria-selected` `true` when it is active and `false` otherwise, exactly one
panel has the class `active`, exactly one panel is without `d-none`, and a
panel is active, and is visible, exactly when its key is `k`. -/
theorem tab_click_invariant (s : Page) (cs : List Nat) (i : Nat) (k : String)
    (hi : (tabIds s)[i]? = some (some k))
    (huniq : (tabIds s).countP (fun d => decide (d = some k)) = 1)
    (hpanel : k ∈ presentPanels s) :
    activeTabCount (clickTab i (clicks cs s)) = 1 ∧
    (∃ t, (clickTab i (clicks cs s)).tabs[i]? = some t ∧ "active" ∈ t.classList) ∧
    (∀ t ∈ (clickTab i (clicks cs s)).tabs,
      t.ariaSelected = some (if "active" ∈ t.classList then "true" else "false")) ∧
    activePanelCount (clickTab i (clicks cs s)) = 1 ∧
    visiblePanelCount (clickTab i (clicks cs s)) = 1 ∧
    (∀ key cl, (key, some cl) ∈ panelList (clickTab i (clicks cs s)) →
      ("active" ∈ cl ↔ key = k) ∧ ("d-none" ∉ cl ↔ key = k)) := by
  have hids := tabIds_clicks cs s
  have hpp := presentPanels_clicks cs s
  have hi0 : (tabIds (clicks cs s))[i]? = some (some k) := by rw [hids]; exact hi
  have hlt : i < (clicks cs s).tabs.length := by
    have := (List.getElem?_eq_some_iff.1 hi0).1
    simpa [tabIds] using this
  obtain ⟨t, _, hid, hc⟩ := clickTab_of_lt i (clicks cs s) hlt
  have hk : t.dataTab = some k := by
    rw [hi0] at hid
    exact (Option.some.inj hid).symm
  rw [hk] at hc
  have hcount := panelCounts_setActiveTab k (clicks cs s)
  rw [hpp, countP_eq_one_of_nodup _ (presentPanels_nodup s) k hpanel] at hcount
  refine ⟨?_, clickTab_activates i _ hlt, ?_, ?_, ?_, ?_⟩
  · rw [hc, activeTabCount_setActiveTab, hids]
    exact huniq
  · intro t' ht'
    rw [hc] at ht'
    exact (tab_after_setActiveTab _ _ t' ht').2
  · rw [hc]; exact hcount.1
  · rw [hc]; exact hcount.2
  · intro key cl hmem
    rw [hc] at hmem
    exact panel_after_setActiveTab k _ key cl hmem

/-- Witness for C1 on a page with the four tabs and the four panels, after the
clicks 2, 0, 3 and then a click on the tab `genre`. -/
theorem tab_click_invariant_witness :
    activeTabCount (clickTab 1 (clicks [2, 0, 3]
      (tabsPage [some "similar", some "genre", some "mood", some "explore"]))) = 1 ∧
    activePanelCount (clickTab 1 (clicks [2, 0, 3]
      (tabsPage [some "similar", some "genre", some "mood", some "explore"]))) = 1 ∧
    visiblePanelCount (clickTab 1 (clicks [2, 0, 3]
      (tabsPage [some "similar", some "genre", some "mood", some "explore"]))) = 1 :=
  have h := tab_click_invariant
    (tabsPage [some "similar", some "genre", some "mood", some "explore"]) [2, 0, 3] 1 "genre"
    (by decide) (by decide) (by decide)
  ⟨h.1, h.2.2.2.1, h.2.2.2.2.1⟩

/-- C2, refuted as stated: with the tab identifiers `a`, `b`, `b` and the
first tab active, three presses of ArrowRight end with the second tab as the
first active one, not the first; and from the state with the second tab first
active, ArrowRight followed by ArrowLeft ends on the first tab. -/
theorem keyboard_cycle_refuted :
    activeIndex (clickTab 0 (tabsPage [some "a", some "b", some "b"])) = some 0 ∧
    activeIndex ((keydown "ArrowRight")^[3]
      (clickTab 0 (tabsPage [some "a", some "b", some "b"]))) = some 1 ∧
    activeIndex (clickTab 1 (tabsPage [some "a", some "b", some "b"])) = some 1 ∧
    activeIndex (keydown "ArrowLeft" (keydown "ArrowRight"
      (clickTab 1 (tabsPage [some "a", some "b", some "b"])))) = some 0 := by
  decide

/-- C2, amended: when no tab is active a keydown changes nothing.  When the
first active tab is at index `i` of `n` tabs, ArrowRight is a click on the tab
at `(i+1) mod n` and ArrowLeft a click on the tab at `(i-1+n) mod n`, the
clicked tab is active afterwards, and any other key changes nothing.  When
moreover the tab identifiers are pairwise distinct, the clicked tab is the only
active one afterwards, `n` presses of ArrowRight lead back to index `i`, and
ArrowLeft after ArrowRight leads back to index `i`. -/
theorem keyboard_navigation (s : Page) (key : String) :
    (activeIndex s = none → keydown key s = s) ∧
    (∀ i, activeIndex s = some i →
      i < s.tabs.length ∧
      keydown "ArrowRight" s = clickTab ((i + 1) % s.tabs.length) s ∧
      (∃ t, (keydown "ArrowRight" s).tabs[(i + 1) % s.tabs.length]? = some t ∧
        "active" ∈ t.classList) ∧
      (∃ j : Nat, (j : Int) = ((i : Int) - 1 + s.tabs.length) % s.tabs.length ∧
        keydown "ArrowLeft" s = clickTab j s ∧
        ∃ t, (keydown "ArrowLeft" s).tabs[j]? = some t ∧ "active" ∈ t.classList) ∧
      (key ≠ "ArrowRight" → key ≠ "ArrowLeft" → keydown key s = s) ∧
      ((tabIds s).Nodup →
        activeIndex (keydown "ArrowRight" s) = some ((i + 1) % s.tabs.length) ∧
        activeTabCount (keydown "ArrowRight" s) = 1 ∧
        activeIndex (keydown "ArrowLeft" s) = some ((i + s.tabs.length - 1) % s.tabs.length) ∧
        activeTabCount (keydown "ArrowLeft" s) = 1 ∧
        activeIndex ((keydown "ArrowRight")^[s.tabs.length] s) = some i ∧
        activeIndex (keydown "ArrowLeft" (keydown "ArrowRight" s)) = some i)) := by
  refine ⟨?_, ?_⟩
  · intro h
    simp [keydown, h]
  · intro i h
    have hlt := activeIndex_lt s i h
    have hpos : 0 < s.tabs.length := by omega
    have hr := keydown_right s i h
    have hl := keydown_left s i h
    have hnext : (i + 1) % s.tabs.length < s.tabs.length := Nat.mod_lt _ hpos
    have hprev : (i + s.tabs.length - 1) % s.tabs.length < s.tabs.length := Nat.mod_lt _ hpos
    refine ⟨hlt, hr, ?_, ?_, ?_, ?_⟩
    · rw [hr]
      exact clickTab_activates _ s hnext
    · refine ⟨(i + s.tabs.length - 1) % s.tabs.length, (left_index i _ hlt).2, hl, ?_⟩
      rw [hl]
      exact clickTab_activates _ s hprev
    · intro h1 h2
      simp [keydown, h, h1, h2]
    · intro hn
      have h1 := activeIndex_clickTab _ s hn hnext
      have h2 := activeIndex_clickTab _ s hn hprev
      refine ⟨by rw [hr]; exact h1.1, by rw [hr]; exact h1.2, by rw [hl]; exact h2.1,
        by rw [hl]; exact h2.2, ?_, ?_⟩
      · have := (keydown_right_iterate s i hn h s.tabs.length).1
        rw [this, Nat.add_mod_right, Nat.mod_eq_of_lt hlt]
      · have hr1 : activeIndex (keydown "ArrowRight" s) = some ((i + 1) % s.tabs.length) := by
          rw [hr]; exact h1.1
        have hlen : (keydown "ArrowRight" s).tabs.length = s.tabs.length := by
          rw [hr]; exact length_tabs_clickTab _ s
        have hids : tabIds (keydown "ArrowRight" s) = tabIds s := by
          rw [hr]; exact tabIds_clickTab _ s
        rw [keydown_left _ _ hr1, hlen]
        have h3 := (activeIndex_clickTab
          (((i + 1) % s.tabs.length + s.tabs.length - 1) % s.tabs.length)
          (keydown "ArrowRight" s) (by rw [hids]; exact hn) (by rw [hlen]; exact Nat.mod_lt _ hpos)).1
        rw [h3]
        congr 1
        by_cases hlast : i + 1 = s.tabs.length
        · rw [hlast, Nat.mod_self, Nat.zero_add, Nat.mod_eq_of_lt (by omega)]
          omega
        · rw [Nat.mod_eq_of_lt (by omega : i + 1 < s.tabs.length)]
          have : i + 1 + s.tabs.length - 1 = i + s.tabs.length := by omega
          rw [this, Nat.add_mod_right, Nat.mod_eq_of_lt hlt]

end Booksynapse
